import Mathlib

/-!
Verification of the compass-service reconciliation core.

This file embeds, shallowly, the behavioural core of the service:
the collection differ, the change-log builders, and the per-kind
reconciliation orchestrators (component, metric, scorecard), and proves
or refutes the frozen claims about them.

Conventions of the embedding:
* JavaScript strings are `String`, numeric weights and comparator values
  are `Nat` (all inputs of interest are small non-negative integers, and
  `Number.prototype.toString` agrees with `Nat` printing there).
* A JS value that can be `undefined` is an `Option`.
* A thrown service exception is the `.error` side of `Except ServiceError`.
* `JSON.stringify` is injective on the record/array shapes compared by the
  change-log builders, and maps `undefined` to `undefined`; a
  `JSON.stringify(a) !== JSON.stringify(b)` test is therefore embedded as
  structural inequality of the corresponding (`Option`-wrapped) values.
-/

set_option autoImplicit false

deriving instance DecidableEq for Except

namespace Compass

variable {α : Type _}

/-! ### JavaScript `Map` built from a list of key/value pairs

`new Map(pairs)` keeps, for each key, the position of its first
occurrence and the value of its last occurrence; iteration follows that
order.  `jsMapEntries` computes exactly that entry list, and `jsMapGet`
is `Map.prototype.get`. -/

/-- The value of the last pair with key `k`, if any. -/
def lastVal (k : String) (l : List (String × α)) : Option α :=
  (l.filterMap fun p => if p.1 == k then some p.2 else none).getLast?

/-- Entry list of `new Map(l)`: first-occurrence order, last-written
value.  (Later occurrences of the head key are removed from the
recursively built tail; removing them before or after building the tail
yields the same list, and this form is structurally recursive.) -/
def jsMapEntries : List (String × α) → List (String × α)
  | [] => []
  | (k, v) :: rest =>
    (k, (lastVal k rest).getD v) ::
      ((jsMapEntries rest).filter fun p => p.1 != k)

/-- `Map.prototype.get` on the map built from the pair list `l`. -/
def jsMapGet (l : List (String × α)) (k : String) : Option α :=
  ((jsMapEntries l).find? fun p => p.1 == k).map (·.2)

/-! ### Scorecard criteria: data shapes

`CriteriaResponse` is `CriteriaResponseDto` of `scorecard-response.dto.ts`
(the `metricName` display field is never read by the embedded operations
and is elided).  `HasMetricValue` / `CriteriaInput` are `HasMetricValueDto`
/ `CriteriaDto` of `create-scorecard.dto.ts`; the `Comparator` enum is a
string. -/

structure CriteriaResponse where
  id : String
  metricDefinitionId : String
  weight : Nat
  name : String
  comparator : Option String
  comparatorValue : Option Nat
  deriving DecidableEq, Repr

structure HasMetricValue where
  id : Option String
  comparator : String
  comparatorValue : Nat
  metricName : String
  name : String
  weight : Nat
  metricDefinitionId : Option String
  deriving DecidableEq, Repr

structure CriteriaInput where
  hasMetricValue : HasMetricValue
  deriving DecidableEq, Repr

/-- A `createCriteria` element pushed by `ScorecardService.updateScorecard`:
all field values are taken from the desired criterion (weights serialized
with `toString()`). -/
structure CreateCriteriaEntry where
  weight : String
  name : String
  metricDefinitionId : Option String
  comparatorValue : String
  comparator : String
  deriving DecidableEq, Repr

/-- An `updateCriteria` element pushed by `ScorecardService.updateScorecard`. -/
structure UpdateCriteriaEntry where
  id : String
  weight : String
  name : String
  metricDefinitionId : String
  deriving DecidableEq, Repr

/-- A `deleteCriteria` element pushed by `ScorecardService.updateScorecard`. -/
structure DeleteCriteriaEntry where
  id : String
  deriving DecidableEq, Repr

structure CriteriaDiff where
  createCriteria : List CreateCriteriaEntry
  updateCriteria : List UpdateCriteriaEntry
  deleteCriteriaIds : List DeleteCriteriaEntry
  deriving DecidableEq, Repr

/-- The criteria diff computed inline by `ScorecardService.updateScorecard`
(scorecard.service.ts:239-284): name-keyed maps over the existing and the
desired criteria, one `for` loop over the new map pushing creates and
updates, one loop over the existing list pushing deletes. -/
def scorecardCriteriaDiff (existingCriterias : List CriteriaResponse)
    (desired : List CriteriaInput) : CriteriaDiff :=
  let existingPairs := existingCriterias.map fun c => (c.name, c)
  let newPairs := desired.map fun c => (c.hasMetricValue.name, c)
  { createCriteria := (jsMapEntries newPairs).filterMap fun p =>
      match jsMapGet existingPairs p.1 with
      | none => some
          { weight := toString p.2.hasMetricValue.weight
            name := p.2.hasMetricValue.name
            metricDefinitionId := p.2.hasMetricValue.metricDefinitionId
            comparatorValue := toString p.2.hasMetricValue.comparatorValue
            comparator := p.2.hasMetricValue.comparator }
      | some _ => none
    updateCriteria := (jsMapEntries newPairs).filterMap fun p =>
      match jsMapGet existingPairs p.1 with
      | none => none
      | some existingCriterion => some
          { id := existingCriterion.id
            weight := toString existingCriterion.weight
            name := existingCriterion.name
            metricDefinitionId := existingCriterion.metricDefinitionId }
    deleteCriteriaIds := existingCriterias.filterMap fun criterion =>
      if (jsMapGet newPairs criterion.name).isNone then
        some { id := criterion.metricDefinitionId }
      else none }

/-- The dependency-name diff computed by
`ComponentService.updateDependencyRelationships`
(component.service.ts:800-808).  Keys present in both lists produce no
operation: there is no update set. -/
structure DependencyDiff where
  dependenciesToRemove : List String
  dependenciesToAdd : List String
  deriving DecidableEq, Repr

def dependencyDiff (currentDependencies newDependencies : List String) :
    DependencyDiff :=
  { dependenciesToRemove :=
      currentDependencies.filter fun dep => !(newDependencies.contains dep)
    dependenciesToAdd :=
      newDependencies.filter fun dep => !(currentDependencies.contains dep) }

/-! ### Service errors

Thrown NestJS exceptions. `validation` is a `BadRequestException` whose
body is `{status_code, error, message, details: [{field, error}]}`;
`fieldError` is a `BadRequestException` whose body is `{field, error}`;
the remaining constructors carry the plain message string the exception
was built with. -/

inductive ServiceError where
  | badRequest (message : String)
  | validation (message : String) (details : List (String × String))
  | fieldError (field : String) (error : String)
  | conflict (message : String)
  | notFound (message : String)
  deriving DecidableEq, Repr

/-- `error.message` of the thrown exception, as read by a wrapping
`catch` block. -/
def errMessage : ServiceError → String
  | .badRequest m => m
  | .validation m _ => m
  | .fieldError _ e => e
  | .conflict m => m
  | .notFound m => m

/-- JS truthiness of a possibly-undefined string (`undefined` and `''`
are falsy). -/
def jsTruthyS (o : Option String) : Bool :=
  match o with
  | some s => s != ""
  | none => false

/-- JS `a || b` on possibly-undefined strings. -/
def jsOrS (a b : Option String) : Option String :=
  if jsTruthyS a then a else b

/-- JS `a || b` where `a` is a possibly-undefined object (objects are
always truthy). -/
def jsOrObj (a b : Option α) : Option α :=
  match a with
  | some x => some x
  | none => b

/-! ### Component service: data shapes (component.service.ts,
component-response.dto.ts, create-component.dto.ts) -/

structure Link where
  name : String
  type : String
  url : String
  deriving DecidableEq, Repr

structure CustomField where
  key : String
  value : String
  deriving DecidableEq, Repr

structure RelNode where
  sourceId : String
  targetId : String
  type : String
  deriving DecidableEq, Repr

structure GqlType where
  name : String
  id : String
  deriving DecidableEq, Repr

/-- A raw `component` record as returned by the GraphQL queries and
mutations.  Fields the protocol may omit are `Option`; `relationships`
and `links` absent in a response behave as `[]` via the `?.` + `|| []`
chains of the mapper. -/
structure GqlComponent where
  id : String
  name : String
  type : Option GqlType
  description : Option String
  links : List Link
  labels : List String
  relationships : List RelNode
  customFields : List CustomField
  createdAt : Option String
  updatedAt : Option String
  deriving DecidableEq, Repr

/-- `ComponentResponseDto`.  The `spec` sub-object duplicates the fields
below verbatim and is read by no embedded operation, so it is not
materialised a second time. -/
structure ComponentResponseDto where
  id : String
  name : String
  componentType : String
  typeId : String
  description : String
  dependsOn : List String
  tribe : String
  squad : String
  links : List Link
  labels : List String
  createdAt : Option String
  updatedAt : Option String
  deriving DecidableEq, Repr

/-- `String.prototype.toLowerCase`: character-wise lowercasing (the
same result as `String.toLower`, stated over the character list so that
it evaluates in the kernel). -/
def jsToLowerCase (s : String) : String :=
  String.mk (s.data.map Char.toLower)

/-- `ComponentService.mapComponentToResponseDto`
(component.service.ts:896-958).  The `x?.y || ''` chains collapse a
missing or empty value to `''`, which `Option.getD ""` reproduces. -/
def mapComponentToResponseDto (component : GqlComponent) : ComponentResponseDto :=
  let dependsOn := (component.relationships.filter fun rel =>
    rel.type == "DEPENDS_ON" && rel.sourceId == component.id).map (·.targetId)
  let tribe := ((component.customFields.find? fun f => f.key == "tribe").map
    (·.value)).getD ""
  let squad := ((component.customFields.find? fun f => f.key == "squad").map
    (·.value)).getD ""
  let componentType := (component.type.map fun t => jsToLowerCase t.name).getD ""
  { id := component.id
    name := component.name
    componentType := componentType
    typeId := (component.type.map (·.id)).getD ""
    description := component.description.getD ""
    dependsOn := dependsOn
    tribe := tribe
    squad := squad
    links := component.links
    labels := component.labels
    createdAt := component.createdAt
    updatedAt := component.updatedAt }

/-- A dependent reported by `ComponentService.checkDependencies`. -/
structure Dependency where
  type : String
  id : String
  name : String
  deriving DecidableEq, Repr

structure TargetRef where
  id : String
  name : String
  deriving DecidableEq, Repr

structure DepRelNode where
  sourceId : String
  targetId : String
  type : String
  target : Option TargetRef
  deriving DecidableEq, Repr

structure DepGqlComponent where
  relationships : List DepRelNode
  deriving DecidableEq, Repr

/-- The remote catalog as seen by one component-service operation: each
remote call is represented by its result.  `none` on a query result means
the call threw or returned a malformed/missing payload; `none` on a
mutation result means the mutation was unsuccessful.
`relationshipCallsFail` makes the relationship sub-calls of
`createDependencyRelationships` / `updateDependencyRelationships` throw. -/
structure ComponentWorld where
  searchResult : Option (List GqlComponent)
  byId : String → Option GqlComponent
  createResult : Option GqlComponent
  createErrors : List String
  updateResult : Option GqlComponent
  updateErrors : List String
  relationshipCallsFail : Bool
  depQueryThrows : Bool
  depQueryComponent : Option DepGqlComponent
  deleteSuccess : Bool
  deleteErrors : List String

/-- `ComponentService.getAllComponents` (component.service.ts:133-213).
A failed or malformed search is thrown as `BadRequestException('Failed to
fetch components')` inside the `try` and re-wrapped by the `catch`. -/
def getAllComponents (w : ComponentWorld) :
    Except ServiceError (List ComponentResponseDto) :=
  match w.searchResult with
  | some nodes => .ok (nodes.map mapComponentToResponseDto)
  | none => .error (.badRequest
      ("Failed to fetch components: " ++ "Failed to fetch components"))

/-- `ComponentService.getComponent` (component.service.ts:215-279): point
lookup by id, `NotFoundException` when the response has no component. -/
def getComponent (w : ComponentWorld) (id : String) :
    Except ServiceError ComponentResponseDto :=
  match w.byId id with
  | some c => .ok (mapComponentToResponseDto c)
  | none => .error (.notFound ("Component with id '" ++ id ++ "' not found"))

/-- `ComponentService.getComponentByName` (component.service.ts:281-304):
linear scan of the full collection; `NotFoundException` passes through
the `catch`, fetch failures are re-wrapped. -/
def getComponentByName (w : ComponentWorld) (name : String) :
    Except ServiceError ComponentResponseDto :=
  match getAllComponents w with
  | .error e => .error (.badRequest
      ("Failed to fetch component by name '" ++ name ++ "': " ++ errMessage e))
  | .ok allComponents =>
    match allComponents.find? fun c => c.name == name with
    | some c => .ok c
    | none => .error (.notFound ("Component with name '" ++ name ++ "' not found"))

/-! ### Change log -/

/-- A change-record value.  `JSON.stringify` is injective on these shapes
and maps `undefined` to `undefined`, so stringify-(in)equality of two
values is structural (in)equality of the embedded values. -/
inductive JsValue where
  | str (s : String)
  | ostr (o : Option String)
  | strList (l : List String)
  | linkList (l : List Link)
  deriving DecidableEq, Repr

structure ChangeRecord where
  field : String
  oldValue : JsValue
  newValue : JsValue
  deriving DecidableEq, Repr

/-- `ComponentService.generateChangeLog` (component.service.ts:52-124).
Scalar fields are compared with `!==`; `dependsOn`, `links` and `labels`
are compared by `JSON.stringify` of the arrays, i.e. order-sensitively. -/
def componentGenerateChangeLog (original updated : ComponentResponseDto) :
    List ChangeRecord :=
  (if original.name != updated.name then
    [{ field := "spec.name", oldValue := .str original.name,
       newValue := .str updated.name }] else []) ++
  (if original.description != updated.description then
    [{ field := "spec.description", oldValue := .str original.description,
       newValue := .str updated.description }] else []) ++
  (if original.componentType != updated.componentType then
    [{ field := "spec.componentType", oldValue := .str original.componentType,
       newValue := .str updated.componentType }] else []) ++
  (if original.typeId != updated.typeId then
    [{ field := "spec.typeId", oldValue := .str original.typeId,
       newValue := .str updated.typeId }] else []) ++
  (if original.tribe != updated.tribe then
    [{ field := "spec.tribe", oldValue := .str original.tribe,
       newValue := .str updated.tribe }] else []) ++
  (if original.squad != updated.squad then
    [{ field := "spec.squad", oldValue := .str original.squad,
       newValue := .str updated.squad }] else []) ++
  (if original.dependsOn != updated.dependsOn then
    [{ field := "spec.dependsOn", oldValue := .strList original.dependsOn,
       newValue := .strList updated.dependsOn }] else []) ++
  (if original.links != updated.links then
    [{ field := "spec.links", oldValue := .linkList original.links,
       newValue := .linkList updated.links }] else []) ++
  (if original.labels != updated.labels then
    [{ field := "spec.labels", oldValue := .strList original.labels,
       newValue := .strList updated.labels }] else [])

/-! ### Component service: operations -/

def validTypeIds : List String :=
  ["SERVICE", "LIBRARY", "WEBSITE", "APPLICATION", "TEMPLATE", "RUNTIME"]

/-- `ComponentSpecDto` restricted to the fields the embedded control flow
reads.  The remaining spec fields (componentType, description, tribe,
squad, links, labels) feed only the remote mutation payload, which the
model represents by the mutation's outcome. -/
structure ComponentSpec where
  name : Option String
  typeId : String
  dependsOn : Option (List String)
  deriving DecidableEq, Repr

structure NestedComponent where
  metadataName : Option String
  spec : Option ComponentSpec
  deriving DecidableEq, Repr

/-- `CreateComponentDto`: either the nested `component` envelope or the
backward-compatible direct `spec`.  The optional `metrics` associations
are elided: their handling cannot throw and their `metricSourceId` is
generated from `Date.now()`/`Math.random()`, which no claim concerns. -/
structure CreateComponentDto where
  component : Option NestedComponent
  spec : Option ComponentSpec
  deriving DecidableEq, Repr

/-- The body of `ComponentService.createDependencyRelationships`
(component.service.ts:739-785) up to its `catch`: fetch all components,
then issue one `createRelationship` mutation per dependency whose id
resolves.  The thrown message is abstract: only the fact that the body
can throw matters, every throw is swallowed. -/
def createDependencyRelationshipsAttempt (w : ComponentWorld)
    (dependencies : List String) : Except String Unit :=
  match getAllComponents w with
  | .error e => .error (errMessage e)
  | .ok allComponents =>
    let componentPairs := allComponents.map fun c => (c.name, c.id)
    if w.relationshipCallsFail &&
        dependencies.any (fun dep => (jsMapGet componentPairs dep).isSome) then
      .error "relationship mutation failed"
    else .ok ()

/-- `ComponentService.createDependencyRelationships`: the `catch` logs and
returns — it never rethrows, because the component creation already
succeeded. -/
def createDependencyRelationships (w : ComponentWorld)
    (dependencies : List String) : Unit :=
  match createDependencyRelationshipsAttempt w dependencies with
  | .error _ => ()
  | .ok _ => ()

/-- The body of `ComponentService.updateDependencyRelationships`
(component.service.ts:787-894) up to its `catch`: read current
dependencies, diff against the new list, then issue the per-edge
relationship queries and mutations. -/
def updateDependencyRelationshipsAttempt (w : ComponentWorld)
    (componentId : String) (newDependencies : List String) :
    Except String Unit :=
  match getComponent w componentId with
  | .error e => .error (errMessage e)
  | .ok currentComponent =>
    let currentDependencies := currentComponent.dependsOn
    match getAllComponents w with
    | .error e => .error (errMessage e)
    | .ok allComponents =>
      let componentPairs := allComponents.map fun c => (c.name, c.id)
      let d := dependencyDiff currentDependencies newDependencies
      if w.relationshipCallsFail &&
          ((d.dependenciesToRemove ++ d.dependenciesToAdd).any
            fun dep => (jsMapGet componentPairs dep).isSome) then
        .error "relationship operation failed"
      else .ok ()

/-- `ComponentService.updateDependencyRelationships`: the `catch` logs and
returns without rethrowing. -/
def updateDependencyRelationships (w : ComponentWorld) (componentId : String)
    (newDependencies : List String) : Unit :=
  match updateDependencyRelationshipsAttempt w componentId newDependencies with
  | .error _ => ()
  | .ok _ => ()

/-- The tail of `createComponent` after validation: submit the mutation,
map the created component, and (when dependencies were supplied)
reconcile relationships, swallowing their failures. -/
def createComponentSubmit (w : ComponentWorld) (deps : List String) :
    Except ServiceError ComponentResponseDto :=
  match w.createResult with
  | none => .error (.badRequest ("Failed to create component: " ++
      (w.createErrors.head?.getD "Unknown error")))
  | some createdComponent =>
    let componentResponse := mapComponentToResponseDto createdComponent
    let _ := if deps.length > 0 then createDependencyRelationships w deps else ()
    .ok componentResponse

/-- `ComponentService.createComponent` (component.service.ts:306-510).
Validation is sequential: name/spec presence, then the typeId enum check
(a plain-message `BadRequestException` naming only the typeId), then the
name-collision check, then the dependency loop which throws on the
*first* unresolvable dependency with a single-element `details` list.
All exceptions thrown inside the trailing `try` are `BadRequestException`s
and are rethrown unchanged by its `catch`. -/
def createComponent (w : ComponentWorld) (dto : CreateComponentDto) :
    Except ServiceError ComponentResponseDto :=
  let componentSpec := jsOrObj (dto.component.bind (·.spec)) dto.spec
  let componentName := jsOrS (componentSpec.bind (·.name))
    (dto.component.bind (·.metadataName))
  if !jsTruthyS componentName then
    .error (.badRequest "Component name is required")
  else
    match componentSpec with
    | none => .error (.badRequest "Component specification is required")
    | some spec =>
      if !(validTypeIds.contains spec.typeId) then
        .error (.badRequest ("Invalid typeId '" ++ spec.typeId ++
          "'. Must be one of: " ++ String.intercalate ", " validTypeIds))
      else
        match getComponentByName w (componentName.getD "") with
        | .ok existingComponent =>
          .error (.conflict ("Component with name '" ++ componentName.getD "" ++
            "' already exists. Existing ID: " ++ existingComponent.id))
        | .error (.notFound _) =>
          if (spec.dependsOn.getD []).length > 0 then
            match getAllComponents w with
            | .error e => .error e
            | .ok allComponents =>
              let existingComponentNames := allComponents.map (·.name)
              match (spec.dependsOn.getD []).find?
                  (fun dep => !(existingComponentNames.contains dep)) with
              | some dep =>
                .error (.validation "Component validation failed"
                  [("spec.dependsOn", "Dependency '" ++ dep ++ "' not found")])
              | none => createComponentSubmit w (spec.dependsOn.getD [])
          else createComponentSubmit w (spec.dependsOn.getD [])
        | .error e => .error e

/-- `UpdateComponentDto.spec` restricted to the fields the embedded
control flow reads (see `ComponentSpec`). -/
structure UpdateComponentSpec where
  name : Option String
  typeId : Option String
  dependsOn : Option (List String)
  deriving DecidableEq, Repr

structure UpdateComponentDto where
  spec : Option UpdateComponentSpec
  deriving DecidableEq, Repr

/-- The tail of `updateComponent` after validation: submit the mutation,
reconcile relationships when `dependsOn` is present (failures swallowed),
and build the change log. -/
def updateComponentSubmit (w : ComponentWorld) (id : String)
    (existingComponent : ComponentResponseDto)
    (dependsOn : Option (List String)) :
    Except ServiceError (ComponentResponseDto × List ChangeRecord) :=
  match w.updateResult with
  | none => .error (.badRequest ("Failed to update component: " ++
      (w.updateErrors.head?.getD "Unknown error during update")))
  | some updatedGqlComponent =>
    let _ := if dependsOn.isSome then
      updateDependencyRelationships w id (dependsOn.getD []) else ()
    let updatedComponentDto := mapComponentToResponseDto updatedGqlComponent
    .ok (updatedComponentDto,
      componentGenerateChangeLog existingComponent updatedComponentDto)

/-- `ComponentService.updateComponent` (component.service.ts:512-627):
resolve by id, validate typeId if present, validate dependencies if
non-empty (plain-message error on the first unresolvable one), submit the
mutation, reconcile relationships when `dependsOn` is present (failures
swallowed), then build the change log against the pre-update state. -/
def updateComponent (w : ComponentWorld) (id : String)
    (dto : UpdateComponentDto) :
    Except ServiceError (ComponentResponseDto × List ChangeRecord) :=
  match getComponent w id with
  | .error e => .error e
  | .ok existingComponent =>
    match dto.spec with
    | none =>
      .error (.badRequest "Component specification (spec) is required for update.")
    | some componentSpec =>
      if jsTruthyS componentSpec.typeId &&
          !(validTypeIds.contains (componentSpec.typeId.getD "")) then
        .error (.badRequest ("Invalid typeId '" ++ componentSpec.typeId.getD "" ++
          "'. Must be one of: " ++ String.intercalate ", " validTypeIds))
      else if (componentSpec.dependsOn.getD []).length > 0 then
        match getAllComponents w with
        | .error e => .error e
        | .ok allComponents =>
          let existingComponentNames := allComponents.map (·.name)
          match (componentSpec.dependsOn.getD []).find?
              (fun dep => !(existingComponentNames.contains dep)) with
          | some dependencyName =>
            .error (.badRequest ("Dependency component '" ++ dependencyName ++
              "' not found."))
          | none =>
            updateComponentSubmit w id existingComponent componentSpec.dependsOn
      else updateComponentSubmit w id existingComponent componentSpec.dependsOn

/-- `ComponentService.checkDependencies` (component.service.ts:673-737):
collect the `DEPENDS_ON` relationships that target this component; a
thrown query or a missing/malformed response yields `[]`. -/
def checkDependencies (w : ComponentWorld) (id : String) : List Dependency :=
  if w.depQueryThrows then []
  else
    match w.depQueryComponent with
    | none => []
    | some component =>
      component.relationships.filterMap fun relationship =>
        match relationship.target with
        | some target =>
          if relationship.type == "DEPENDS_ON" && relationship.targetId == id then
            some { type := "component", id := target.id, name := target.name }
          else none
        | none => none

/-- `ComponentService.deleteComponent` (component.service.ts:629-671).
The returned `Bool` records whether the remote `deleteComponent` mutation
was submitted. -/
def deleteComponent (w : ComponentWorld) (id : String) :
    Except ServiceError (String × String) × Bool :=
  match getComponent w id with
  | .error e => (.error e, false)
  | .ok _ =>
    let dependencies := checkDependencies w id
    if dependencies.length > 0 then
      let dependencySummary := String.intercalate ", "
        (dependencies.map fun dep => dep.name ++ " (ID: " ++ dep.id ++ ")")
      (.error (.conflict ("Cannot delete component '" ++ id ++
        "' as it has active dependencies: " ++ dependencySummary)), false)
    else if w.deleteSuccess then
      (.ok (id, "Component '" ++ id ++ "' deleted successfully."), true)
    else
      (.error (.badRequest ("Failed to delete component '" ++ id ++ "': " ++
        (w.deleteErrors.head?.getD "Unknown error during deletion"))), true)

/-! ### Metric service (MetricService, inlined in README.md)

The metric service implementation lives, in this repository snapshot, in
the README's full source listing of `metric.service.ts`; the embedding
below follows that listing. -/

/-- A raw `metricDefinition` node.  The search query selects id, name,
type and description; the mapper additionally probes `format?.suffix`. -/
structure GqlMetric where
  id : String
  name : Option String
  type : Option String
  description : Option String
  formatSuffix : Option String
  deriving DecidableEq, Repr

/-- `MetricResponseDto` with its `spec` sub-object flattened into
`spec*` fields.  The conditionally spread spec extras (componentType,
grading-system, cronSchedule, facts) are read by no embedded operation
and are elided. -/
structure MetricResponseDto where
  id : String
  name : String
  specName : String
  specDescription : String
  specFormatUnit : String
  unit : String
  type : String
  deriving DecidableEq, Repr

/-- `MetricService.mapToMetricResponseDto` (README listing).  The
`!metric` early return is unreachable at the embedded call sites, which
always pass a present node. -/
def mapToMetricResponseDto (metric : GqlMetric) : MetricResponseDto :=
  { id := metric.id
    name := metric.name.getD ""
    specName := metric.name.getD ""
    specDescription := metric.description.getD ""
    specFormatUnit := metric.formatSuffix.getD ""
    unit := metric.formatSuffix.getD ""
    type := metric.type.getD "" }

structure MetricWorld where
  metricsResult : Option (List GqlMetric)
  createResult : Option GqlMetric
  updatedResult : Option GqlMetric
  updateErrors : List String
  deleteSuccess : Bool
  deleteErrors : List String

/-- `MetricService.getAllMetrics`: full-collection read, BadRequest when
the response is missing or malformed. -/
def getAllMetrics (w : MetricWorld) :
    Except ServiceError (List MetricResponseDto) :=
  match w.metricsResult with
  | some nodes => .ok (nodes.map mapToMetricResponseDto)
  | none => .error (.badRequest "Failed to fetch metric definitions")

/-- `MetricService.getMetric`: linear scan of the full collection. -/
def getMetric (w : MetricWorld) (id : String) :
    Except ServiceError MetricResponseDto := do
  let allMetrics ← getAllMetrics w
  match allMetrics.find? fun m => m.id == id with
  | some metric => pure metric
  | none => throw (.notFound ("Metric with ID '" ++ id ++ "' not found."))

/-- `MetricService.getMetricByName`: linear scan by name. -/
def getMetricByName (w : MetricWorld) (name : String) :
    Except ServiceError MetricResponseDto := do
  let allMetrics ← getAllMetrics w
  match allMetrics.find? fun m => m.name == name with
  | some metric => pure metric
  | none => throw (.notFound ("Metric with name '" ++ name ++ "' not found."))

/-- `CreateMetricDto` restricted to the fields the embedded control flow
reads; `gradingSystem` is the `'grading-system'` spec key. -/
structure MetricSpecInput where
  name : String
  description : Option String
  formatUnit : Option String
  gradingSystem : Option String
  deriving DecidableEq, Repr

structure CreateMetricDto where
  kind : String
  metadataName : String
  spec : Option MetricSpecInput
  deriving DecidableEq, Repr

def validGradingSystems : List String :=
  ["resiliency", "observability", "production-readiness", "security",
   "cost-optimization"]

/-- `MetricService.createMetric` (README listing, the section the claims
cite): kind/name/spec presence, name-collision check whose Conflict
message carries the existing metric's id, then the spec validations and
the mutation.  The optional `cronSchedule` regex check is elided (no
claim concerns it; it is another fail-fast single-field error). -/
def createMetric (w : MetricWorld) (dto : CreateMetricDto) :
    Except ServiceError MetricResponseDto :=
  if dto.kind != "Metric" then
    .error (.badRequest "Invalid resource kind. Expected \"Metric\"")
  else if dto.metadataName == "" then
    .error (.badRequest "Metric name is required in metadata")
  else
    match dto.spec with
    | none => .error (.badRequest "Metric specification is required")
    | some metricSpec =>
      match getMetricByName w dto.metadataName with
      | .ok existingMetric =>
        .error (.conflict ("Metric with name '" ++ dto.metadataName ++
          "' already exists. Existing ID: " ++ existingMetric.id))
      | .error (.notFound _) =>
        if jsTruthyS metricSpec.gradingSystem &&
            !(validGradingSystems.contains (metricSpec.gradingSystem.getD "")) then
          .error (.validation "Metric validation failed"
            [("spec.grading-system",
              "Invalid grading system. Must be one of: resiliency, observability, production-readiness, security, cost-optimization")])
        else
          match w.createResult with
          | none => .error (.badRequest "Failed to create metric definition")
          | some createdMetricDefinition =>
            .ok (mapToMetricResponseDto createdMetricDefinition)
      | .error e => .error e

/-- `UpdateMetricDto` as read by `updateMetric`:
`metadata?.name`, `spec?.description`, `spec?.format?.unit`. -/
structure UpdateMetricDto where
  metadataName : Option String
  specDescription : Option String
  specFormatUnit : Option String
  deriving DecidableEq, Repr

/-- `MetricService.updateMetric` (README listing).  Change records are
accumulated while the mutation variables are assembled; when no updatable
field is present (`Object.keys(variables).length <= 2` and none of name,
description, unit was set) the existing metric and the (empty) change
list are returned without submitting the mutation.  The returned `Bool`
records whether the `updateMetricDefinition` mutation was submitted. -/
def updateMetric (w : MetricWorld) (id : String) (dto : UpdateMetricDto) :
    Except ServiceError (MetricResponseDto × List ChangeRecord) × Bool :=
  match getMetric w id with
  | .error e => (.error e, false)
  | .ok existingMetric =>
    let nameSet := jsTruthyS dto.metadataName
    let descriptionSet := jsTruthyS dto.specDescription
    let unitSet := jsTruthyS dto.specFormatUnit
    let changes :=
      (if nameSet && existingMetric.name != dto.metadataName.getD "" then
        [{ field := "metadata.name", oldValue := .str existingMetric.name,
           newValue := .str (dto.metadataName.getD "") }] else []) ++
      (if descriptionSet &&
          existingMetric.specDescription != dto.specDescription.getD "" then
        [{ field := "spec.description",
           oldValue := .str existingMetric.specDescription,
           newValue := .str (dto.specDescription.getD "") }] else []) ++
      (if unitSet && existingMetric.unit != dto.specFormatUnit.getD "" then
        [{ field := "spec.format.unit", oldValue := .str existingMetric.unit,
           newValue := .str (dto.specFormatUnit.getD "") }] else [])
    if !nameSet && !descriptionSet && !unitSet then
      (.ok (existingMetric, changes), false)
    else
      match w.updatedResult with
      | none => (.error (.badRequest ("Failed to update metric definition: " ++
          (w.updateErrors.head?.getD "Unknown error during metric update"))), true)
      | some updated => (.ok (mapToMetricResponseDto updated, changes), true)

/-! ### Scorecard service (scorecard.service.ts)

The service holds two session caches, `metricsCache` and
`scorecardListCache` (both `null` when empty); every operation threads a
`ScorecardCacheState` explicitly. -/

/-- JS `a || b` on a possibly-undefined string with a string fallback. -/
def jsOrStr (a : Option String) (b : String) : String :=
  if jsTruthyS a then a.getD "" else b

structure ScOwner where
  id : Option String
  name : Option String
  deriving DecidableEq, Repr

/-- A raw criteria node of the `searchScorecards` query (id, weight,
name). -/
structure RawCriteria where
  id : String
  weight : Nat
  name : String
  deriving DecidableEq, Repr

/-- A raw scorecard node of the `searchScorecards` query.  The query
selects neither `importance` nor `scoringStrategyType` nor `owner.id`,
so those are absent on fetched scorecards. -/
structure RawScorecard where
  id : String
  name : String
  state : Option String
  type : Option String
  verified : Option Bool
  description : Option String
  criterias : List RawCriteria
  componentTypeIds : List String
  owner : Option ScOwner
  deriving DecidableEq, Repr

/-- `ScorecardSpecDto` of `create-scorecard.dto.ts` (enums as strings). -/
structure ScorecardSpecInput where
  componentTypeIds : List String
  criteria : List CriteriaInput
  description : Option String
  importance : String
  name : String
  ownerId : String
  scoringStrategyType : String
  state : String
  deriving DecidableEq, Repr

/-- `CreateScorecardDto` (kind + metadata.name from the request payload
envelope + spec). -/
structure CreateScorecardDto where
  kind : String
  metadataName : String
  spec : Option ScorecardSpecInput
  deriving DecidableEq, Repr

/-- A criteria record as consumed by `mapToScorecardResponseDto`: the
search path supplies id/weight/name plus the enriched
`metricDefinitionId`; the create path supplies only id/name.  Neither
call site carries a `hasMetricValue` sub-object, so the
`crit.hasMetricValue?.…` probes of the mapper read `undefined`. -/
structure MapCriteria where
  id : String
  weight : Option Nat
  name : String
  metricDefinitionId : Option String
  deriving DecidableEq, Repr

/-- The `scorecardData` argument of `mapToScorecardResponseDto`, covering
both call-site shapes. -/
structure ScMapInput where
  id : String
  name : Option String
  state : Option String
  type : Option String
  verified : Option Bool
  description : Option String
  criterias : List MapCriteria
  componentTypeIds : Option (List String)
  owner : Option ScOwner
  importance : Option String
  scoringStrategyType : Option String
  deriving DecidableEq, Repr

/-- An entry of the mapped `spec.criteria` array of the response DTO. -/
structure SpecHMV where
  metricDefinitionId : String
  name : String
  weight : Nat
  comparator : Option String
  comparatorValue : Option Nat
  deriving DecidableEq, Repr

structure SpecCriterion where
  hasMetricValue : SpecHMV
  deriving DecidableEq, Repr

/-- The `spec` sub-object of `ScorecardResponseDto` as built by
`mapToScorecardResponseDto`.  Note it has a `criteria` array and *no*
`criterias` field. -/
structure ScSpecObj where
  name : Option String
  description : String
  componentTypeIds : List String
  ownerId : Option String
  criteria : List SpecCriterion
  state : Option String
  importance : Option String
  scoringStrategyType : Option String
  deriving DecidableEq, Repr

structure ScorecardResponseDto where
  id : String
  name : Option String
  description : String
  componentTypeIds : List String
  owner : ScOwner
  criterias : List CriteriaResponse
  state : Option String
  type : String
  verified : Bool
  importance : Option String
  scoringStrategyType : Option String
  spec : ScSpecObj
  deriving DecidableEq, Repr

structure ScorecardCacheState where
  metricsCache : Option (List MetricResponseDto)
  scorecardListCache : Option (List ScorecardResponseDto)
  deriving DecidableEq, Repr

/-- `ScorecardService.mapToScorecardResponseDto`
(scorecard.service.ts:520-574).  `spec` is `specFromInput ||
scorecardData`; `x || y` chains follow JS truthiness (`''` falsy, arrays
and objects truthy); `parseFloat(undefined)` is `NaN` (falsy) and
`parseFloat(w) || 1.0` maps a weight of `0` to `1`. -/
def mapToScorecardResponseDto (scorecardData : ScMapInput)
    (metrics : List MetricResponseDto)
    (specFromInput : Option ScorecardSpecInput) : ScorecardResponseDto :=
  let specName : Option String := match specFromInput with
    | some s => some s.name
    | none => scorecardData.name
  let specDescription : Option String := match specFromInput with
    | some s => s.description
    | none => scorecardData.description
  let specComponentTypeIds : Option (List String) := match specFromInput with
    | some s => some s.componentTypeIds
    | none => scorecardData.componentTypeIds
  let specOwnerId : Option String := specFromInput.map (·.ownerId)
  let specCriteria : Option (List CriteriaInput) := specFromInput.map (·.criteria)
  let specState : Option String := match specFromInput with
    | some s => some s.state
    | none => scorecardData.state
  let specImportance : Option String := match specFromInput with
    | some s => some s.importance
    | none => scorecardData.importance
  let specScoringStrategyType : Option String := match specFromInput with
    | some s => some s.scoringStrategyType
    | none => scorecardData.scoringStrategyType
  let mappedCriterias := scorecardData.criterias.map fun crit =>
    let metric := metrics.find? fun m =>
      (some m.id == crit.metricDefinitionId) || (m.name == crit.name)
    -- `spec.criteria?.find(c => c.name === crit.name ||
    -- c.hasMetricValue?.name === crit.name)`: `CriteriaDto` has no `name`
    -- field, so only the `hasMetricValue.name` disjunct can match.
    let inputCrit := specCriteria.bind fun cs =>
      cs.find? fun c => c.hasMetricValue.name == crit.name
    ({ id := crit.id
       metricDefinitionId := jsOrStr (metric.map (·.id))
         (jsOrStr crit.metricDefinitionId "")
       name := jsOrStr (metric.map (·.name)) crit.name
       weight := match crit.weight with
         | some wt => if wt = 0 then 1 else wt
         | none => 1
       comparator := inputCrit.map (·.hasMetricValue.comparator)
       comparatorValue := inputCrit.map (·.hasMetricValue.comparatorValue)
     } : CriteriaResponse)
  let owner : ScOwner := match scorecardData.owner with
    | some o => o
    | none => { id := none, name := specOwnerId }
  let name := jsOrS scorecardData.name specName
  let description := jsOrStr scorecardData.description (jsOrStr specDescription "")
  let componentTypeIds := match scorecardData.componentTypeIds with
    | some l => l
    | none => specComponentTypeIds.getD []
  let state := jsOrS scorecardData.state specState
  let importance := jsOrS scorecardData.importance specImportance
  let scoringStrategyType :=
    jsOrS scorecardData.scoringStrategyType specScoringStrategyType
  { id := scorecardData.id
    name := name
    description := description
    componentTypeIds := componentTypeIds
    owner := owner
    criterias := mappedCriterias
    state := state
    type := jsOrStr scorecardData.type ""
    verified := scorecardData.verified.getD true
    importance := importance
    scoringStrategyType := scoringStrategyType
    spec :=
      { name := name
        description := description
        componentTypeIds := componentTypeIds
        ownerId := jsOrS (scorecardData.owner.bind (·.id)) specOwnerId
        criteria := mappedCriterias.map fun mc =>
          { hasMetricValue :=
              { metricDefinitionId := mc.metricDefinitionId
                name := mc.name
                weight := mc.weight
                comparator := mc.comparator
                comparatorValue := mc.comparatorValue } }
        state := state
        importance := importance
        scoringStrategyType := scoringStrategyType } }

/-- The `createScorecard` mutation's `scorecardDetails` payload
(id plus criteria ids/names). -/
structure CreatedCriteria where
  id : String
  name : String
  deriving DecidableEq, Repr

structure CreatedScorecardDetails where
  id : String
  criterias : List CreatedCriteria
  deriving DecidableEq, Repr

structure ScorecardWorld where
  metricWorld : MetricWorld
  scorecardsResult : Option (List RawScorecard)
  updateSuccess : Bool
  updateErrors : List String
  createResult : Option CreatedScorecardDetails
  createErrors : List String
  deleteSuccess : Bool
  deleteErrors : List String

/-- `ScorecardService.getMetrics` (scorecard.service.ts:29-38): lazily
fill `metricsCache` from `metricService.getAllMetrics()`. -/
def scGetMetrics (w : ScorecardWorld) (s : ScorecardCacheState) :
    Except ServiceError (List MetricResponseDto) × ScorecardCacheState :=
  match s.metricsCache with
  | some ms => (.ok ms, s)
  | none =>
    match getAllMetrics w.metricWorld with
    | .ok ms => (.ok ms, { s with metricsCache := some ms })
    | .error e => (.error e, s)

/-- Enrichment loop of `getAllScorecards`: `criteria.metricDefinitionId =
metric.id` for the metric with the same name, when found. -/
def enrichCriteria (metricsList : List MetricResponseDto)
    (criteria : RawCriteria) : MapCriteria :=
  { id := criteria.id
    weight := some criteria.weight
    name := criteria.name
    metricDefinitionId :=
      (metricsList.find? fun m => m.name == criteria.name).map (·.id) }

def rawToMapInput (metricsList : List MetricResponseDto)
    (sc : RawScorecard) : ScMapInput :=
  { id := sc.id
    name := some sc.name
    state := sc.state
    type := sc.type
    verified := sc.verified
    description := sc.description
    criterias := sc.criterias.map (enrichCriteria metricsList)
    componentTypeIds := some sc.componentTypeIds
    owner := sc.owner
    importance := none
    scoringStrategyType := none }

/-- `ScorecardService.getAllScorecards` (scorecard.service.ts:103-170):
serve from `scorecardListCache` unless empty or busted; otherwise fetch
the raw scorecards, fetch (cached) metrics, enrich the criteria and map,
filling the cache. -/
def getAllScorecards (w : ScorecardWorld) (s : ScorecardCacheState)
    (bustCache : Bool) :
    Except ServiceError (List ScorecardResponseDto) × ScorecardCacheState :=
  match s.scorecardListCache with
  | some cached =>
    if !bustCache then (.ok cached, s) else getAllScorecardsFetch w s
  | none => getAllScorecardsFetch w s
where
  getAllScorecardsFetch (w : ScorecardWorld) (s : ScorecardCacheState) :
      Except ServiceError (List ScorecardResponseDto) × ScorecardCacheState :=
    match w.scorecardsResult with
    | none => (.error (.badRequest "Failed to fetch scorecards data."), s)
    | some rawScorecards =>
      match scGetMetrics w s with
      | (.error e, s1) => (.error e, s1)
      | (.ok metricsList, s1) =>
        let mapped := rawScorecards.map fun sc =>
          mapToScorecardResponseDto (rawToMapInput metricsList sc)
            metricsList none
        (.ok mapped, { s1 with scorecardListCache := some mapped })

/-- `ScorecardService.getScorecard` (scorecard.service.ts:172-179). -/
def getScorecard (w : ScorecardWorld) (s : ScorecardCacheState)
    (id : String) :
    Except ServiceError ScorecardResponseDto × ScorecardCacheState :=
  match getAllScorecards w s false with
  | (.error e, s1) => (.error e, s1)
  | (.ok allScorecards, s1) =>
    match allScorecards.find? fun sc => sc.id == id with
    | some scorecard => (.ok scorecard, s1)
    | none =>
      (.error (.notFound ("Scorecard with ID '" ++ id ++ "' not found.")), s1)

/-- `ScorecardService.getScorecardByName` (scorecard.service.ts:181-188). -/
def getScorecardByName (w : ScorecardWorld) (s : ScorecardCacheState)
    (name : String) :
    Except ServiceError ScorecardResponseDto × ScorecardCacheState :=
  match getAllScorecards w s false with
  | (.error e, s1) => (.error e, s1)
  | (.ok allScorecards, s1) =>
    match allScorecards.find? fun sc => sc.name == some name with
    | some scorecard => (.ok scorecard, s1)
    | none =>
      (.error (.notFound ("Scorecard with name '" ++ name ++ "' not found.")),
        s1)

/-- `ScorecardService.generateChangeLog` (scorecard.service.ts:47-100) at
its runtime call site, where both arguments are `ScorecardResponseDto`s:
`updatedSpec` is `updated.spec` (the DTO has a `spec` key) and
`originalSpec` is `original.spec` (a present object, hence truthy).

The criteria comparison reads `originalSpec.criterias` — a field the
`spec` object does not have, i.e. `undefined` — and compares its
`JSON.stringify` (which is `undefined`) against the stringified
`updatedSpec.criteria` array (a string), so it holds whenever the
updated spec carries a criteria array.  `oldValue` is then rendered from
`originalSpec.criterias?.length || 0`, i.e. `0`. -/
def scorecardGenerateChangeLog (original updated : ScorecardResponseDto) :
    List ChangeRecord :=
  let originalSpec := original.spec
  let updatedSpec := updated.spec
  let originalSpecCriterias : Option (List SpecCriterion) := none
  (if originalSpec.name != updatedSpec.name then
    [{ field := "spec.name", oldValue := .ostr originalSpec.name,
       newValue := .ostr updatedSpec.name }] else []) ++
  (if originalSpec.description != updatedSpec.description then
    [{ field := "spec.description", oldValue := .str originalSpec.description,
       newValue := .str updatedSpec.description }] else []) ++
  (if originalSpec.componentTypeIds != updatedSpec.componentTypeIds then
    [{ field := "spec.componentTypeIds",
       oldValue := .strList originalSpec.componentTypeIds,
       newValue := .strList updatedSpec.componentTypeIds }] else []) ++
  (if originalSpecCriterias != some updatedSpec.criteria then
    [{ field := "spec.criteria",
       oldValue := .str (toString
         ((originalSpecCriterias.map List.length).getD 0) ++ " criteria"),
       newValue := .str (toString updatedSpec.criteria.length ++
         " criteria") }] else []) ++
  (if originalSpec.ownerId != updatedSpec.ownerId &&
      updatedSpec.ownerId.isSome then
    [{ field := "spec.ownerId", oldValue := .ostr originalSpec.ownerId,
       newValue := .ostr updatedSpec.ownerId }] else []) ++
  (if originalSpec.state != updatedSpec.state && updatedSpec.state.isSome then
    [{ field := "spec.state", oldValue := .ostr originalSpec.state,
       newValue := .ostr updatedSpec.state }] else []) ++
  (if originalSpec.importance != updatedSpec.importance &&
      updatedSpec.importance.isSome then
    [{ field := "spec.importance", oldValue := .ostr originalSpec.importance,
       newValue := .ostr updatedSpec.importance }] else []) ++
  (if originalSpec.scoringStrategyType != updatedSpec.scoringStrategyType &&
      updatedSpec.scoringStrategyType.isSome then
    [{ field := "spec.scoringStrategyType",
       oldValue := .ostr originalSpec.scoringStrategyType,
       newValue := .ostr updatedSpec.scoringStrategyType }] else [])

/-- The cleared cache state written by `ScorecardService.clearCaches`
(scorecard.service.ts:41-44). -/
def clearedCaches : ScorecardCacheState :=
  { metricsCache := none, scorecardListCache := none }

/-- `String.prototype.includes`. -/
def strIncludes (s pattern : String) : Bool :=
  decide (List.IsInfix pattern.toList s.toList)

/-- `ScorecardService.updateScorecard` (scorecard.service.ts:190-328):
resolve by id, kind/name/spec checks, validate referenced metrics
(fail-fast on the first unknown one), re-read the existing scorecard,
compute the criteria diff (it feeds the mutation variables), submit the
mutation, `clearCaches()`, re-fetch the updated scorecard, and build the
change log against the pre-update state.  The `catch` rethrows
`BadRequestException`/`NotFoundException` unchanged, which covers every
throw the body can produce. -/
def updateScorecard (w : ScorecardWorld) (s : ScorecardCacheState)
    (id : String) (dto : CreateScorecardDto) :
    Except ServiceError (ScorecardResponseDto × List ChangeRecord) ×
      ScorecardCacheState :=
  match getScorecard w s id with
  | (.error e, s1) => (.error e, s1)
  | (.ok existingScorecard, s1) =>
    if dto.kind != "Scorecard" then
      (.error (.badRequest "Invalid resource kind. Expected \"Scorecard\"."), s1)
    else if dto.metadataName == "" then
      (.error (.badRequest "Scorecard name is required in metadata."), s1)
    else
      match dto.spec with
      | none => (.error (.badRequest "Scorecard specification is required."), s1)
      | some scorecardSpec =>
        let afterValidation := fun (s2 : ScorecardCacheState) =>
          match getScorecard w s2 id with
          | (.error e, s3) => (.error e, s3)
          | (.ok existingScorecard2, s3) =>
            let _diff := scorecardCriteriaDiff existingScorecard2.criterias
              scorecardSpec.criteria
            if !w.updateSuccess then
              (.error (.badRequest ("Failed to update scorecard: " ++
                (w.updateErrors.head?.getD
                  "Unknown error during scorecard update"))), s3)
            else
              match getScorecard w clearedCaches id with
              | (.error e, s5) => (.error e, s5)
              | (.ok updatedScorecardData, s5) =>
                (.ok (updatedScorecardData,
                  scorecardGenerateChangeLog existingScorecard
                    updatedScorecardData), s5)
        if scorecardSpec.criteria.length > 0 then
          match scGetMetrics w s1 with
          | (.error e, s2) => (.error e, s2)
          | (.ok metricsList, s2) =>
            let metricNames := metricsList.map (·.name)
            match scorecardSpec.criteria.find?
                (fun c => !(metricNames.contains c.hasMetricValue.name)) with
            | some criterion =>
              (.error (.fieldError "spec.criteria.hasMetricValue.name"
                ("Referenced metric '" ++ criterion.hasMetricValue.name ++
                  "' does not exist")), s2)
            | none => afterValidation s2
        else afterValidation s1

def createdToMapInput (details : CreatedScorecardDetails) : ScMapInput :=
  { id := details.id
    name := none
    state := none
    type := none
    verified := none
    description := none
    criterias := details.criterias.map fun c =>
      { id := c.id, weight := none, name := c.name, metricDefinitionId := none }
    componentTypeIds := none
    owner := none
    importance := none
    scoringStrategyType := none }

/-- `ScorecardService.createScorecard` (scorecard.service.ts:330-466):
kind/name/spec checks, name-collision check (the Conflict message names
only the scorecard name), componentTypeIds/criteria non-emptiness
checks, the mutation, `clearCaches()`, then a metrics read to map the
minimal mutation response into the DTO. -/
def createScorecard (w : ScorecardWorld) (s : ScorecardCacheState)
    (dto : CreateScorecardDto) :
    Except ServiceError ScorecardResponseDto × ScorecardCacheState :=
  if dto.kind != "Scorecard" then
    (.error (.badRequest "Invalid resource kind. Expected \"Scorecard\"."), s)
  else if dto.metadataName == "" then
    (.error (.badRequest "Scorecard name is required in metadata."), s)
  else
    match dto.spec with
    | none => (.error (.badRequest "Scorecard specification is required."), s)
    | some scorecardSpec =>
      match getScorecardByName w s dto.metadataName with
      | (.ok _, s1) =>
        (.error (.conflict ("Scorecard with name '" ++ dto.metadataName ++
          "' already exists.")), s1)
      | (.error (.notFound _), s1) =>
        if scorecardSpec.componentTypeIds.length = 0 then
          (.error (.fieldError "spec.componentTypeIds"
            "At least one component type ID is required"), s1)
        else if scorecardSpec.criteria.length = 0 then
          (.error (.fieldError "spec.criteria"
            "At least one criterion is required"), s1)
        else
          match w.createResult with
          | none =>
            (.error (.badRequest ("Failed to create scorecard: " ++
              (w.createErrors.head?.getD
                "Unknown error during scorecard creation"))), s1)
          | some createdDetails =>
            match scGetMetrics w clearedCaches with
            | (.error e, s3) => (.error e, s3)
            | (.ok metrics, s3) =>
              (.ok (mapToScorecardResponseDto (createdToMapInput createdDetails)
                metrics (some scorecardSpec)), s3)
      | (.error e, s1) => (.error e, s1)

/-- `ScorecardService.deleteScorecard` (scorecard.service.ts:468-518):
resolve by id, submit the deletion, reclassify remote errors whose text
indicates a referential-integrity rejection as Conflict, and
`clearCaches()` on success. -/
def deleteScorecard (w : ScorecardWorld) (s : ScorecardCacheState)
    (id : String) :
    Except ServiceError (String × String) × ScorecardCacheState :=
  match getScorecard w s id with
  | (.error e, s1) => (.error e, s1)
  | (.ok _, s1) =>
    if w.deleteSuccess then
      (.ok (id, "Scorecard with ID '" ++ id ++ "' deleted successfully."),
        clearedCaches)
    else
      let errorMsg := w.deleteErrors.head?.getD
        "Unknown error during scorecard deletion"
      if strIncludes (jsToLowerCase errorMsg) "foreign key constraint" ||
          strIncludes (jsToLowerCase errorMsg) "still referenced" then
        (.error (.conflict ("Failed to delete scorecard: " ++ errorMsg ++
          ". It may be in use.")), s1)
      else
        (.error (.badRequest ("Failed to delete scorecard: " ++ errorMsg)), s1)


/-! ### Concrete inputs used by counterexamples and witnesses -/

def exCriterion : CriteriaResponse :=
  { id := "c1"
    metricDefinitionId := "md1"
    weight := 1
    name := "m"
    comparator := none
    comparatorValue := none }

def exDesired : CriteriaInput :=
  { hasMetricValue :=
      { id := none
        comparator := "GREATER_THAN"
        comparatorValue := 7
        metricName := "m"
        name := "m"
        weight := 2
        metricDefinitionId := some "md9" } }

/-- A component world whose collection read returns an empty catalog and
whose point lookups find nothing. -/
def exWorldEmpty : ComponentWorld :=
  { searchResult := some []
    byId := fun _ => none
    createResult := none
    createErrors := []
    updateResult := none
    updateErrors := []
    relationshipCallsFail := false
    depQueryThrows := false
    depQueryComponent := none
    deleteSuccess := true
    deleteErrors := [] }

/-- A create request with two independently invalid fields: an invalid
`typeId` and an unresolvable dependency. -/
def exDtoInvalidTypeAndDep : CreateComponentDto :=
  { component := none
    spec := some { name := some "svc", typeId := "BOGUS",
                   dependsOn := some ["ghost"] } }

/-- A create request with a valid `typeId` and two unresolvable
dependencies. -/
def exDtoTwoBadDeps : CreateComponentDto :=
  { component := none
    spec := some { name := some "svc", typeId := "SERVICE",
                   dependsOn := some ["g1", "g2"] } }

def exGqlMetric : GqlMetric :=
  { id := "md1"
    name := some "m"
    type := none
    description := none
    formatSuffix := none }

/-- A metric world holding one metric, named `m`. -/
def exMetricWorld : MetricWorld :=
  { metricsResult := some [exGqlMetric]
    createResult := none
    updatedResult := none
    updateErrors := []
    deleteSuccess := true
    deleteErrors := [] }

def exCreateMetricDto : CreateMetricDto :=
  { kind := "Metric"
    metadataName := "m"
    spec := some { name := "m", description := none, formatUnit := none,
                   gradingSystem := none } }

def exGqlComponent : GqlComponent :=
  { id := "c-1"
    name := "svc"
    type := some { name := "Service", id := "SERVICE" }
    description := some "d"
    links := []
    labels := ["a", "b"]
    relationships := []
    customFields := []
    createdAt := none
    updatedAt := none }

/-- A component world whose catalog holds one component, named `svc`. -/
def exWorldWithComponent : ComponentWorld :=
  { exWorldEmpty with searchResult := some [exGqlComponent] }

/-- A raw scorecard named `quality` with the given remote id. -/
def exRawScorecard (sid : String) : RawScorecard :=
  { id := sid
    name := "quality"
    state := some "PUBLISHED"
    type := none
    verified := some true
    description := some "d"
    criterias := [{ id := "cr1", weight := 1, name := "m" }]
    componentTypeIds := ["SERVICE"]
    owner := none }

/-- A scorecard world holding one scorecard named `quality` with the
given remote id, over `exMetricWorld`; every mutation succeeds. -/
def exScWorld (sid : String) : ScorecardWorld :=
  { metricWorld := exMetricWorld
    scorecardsResult := some [exRawScorecard sid]
    updateSuccess := true
    updateErrors := []
    createResult := some { id := "sc-new", criterias := [{ id := "cr2", name := "m" }] }
    createErrors := []
    deleteSuccess := true
    deleteErrors := [] }

def exScSpec : ScorecardSpecInput :=
  { componentTypeIds := ["SERVICE"]
    criteria := [exDesired]
    description := some "d2"
    importance := "REQUIRED"
    name := "quality"
    ownerId := "o1"
    scoringStrategyType := "WEIGHT_BASED"
    state := "PUBLISHED" }

def exCreateScorecardDto : CreateScorecardDto :=
  { kind := "Scorecard"
    metadataName := "quality"
    spec := some exScSpec }

def exDummyScorecard : ScorecardResponseDto :=
  mapToScorecardResponseDto (createdToMapInput { id := "", criterias := [] })
    [] none

def exCreatedGql : GqlComponent :=
  { id := "c-2"
    name := "newsvc"
    type := some { name := "Service", id := "SERVICE" }
    description := none
    links := []
    labels := []
    relationships := []
    customFields := []
    createdAt := none
    updatedAt := none }

/-- A component world where the primary mutations succeed but every
relationship sub-call throws. -/
def exWorldRelFail : ComponentWorld :=
  { searchResult := some [exGqlComponent]
    byId := fun i => if i = "c-1" then some exGqlComponent else none
    createResult := some exCreatedGql
    createErrors := []
    updateResult := some exCreatedGql
    updateErrors := []
    relationshipCallsFail := true
    depQueryThrows := false
    depQueryComponent := none
    deleteSuccess := true
    deleteErrors := [] }

/-- A component world where `c-1` has one dependent (`consumer`). -/
def exDepRelNode : DepRelNode :=
  { sourceId := "c-9"
    targetId := "c-1"
    type := "DEPENDS_ON"
    target := some { id := "c-9", name := "consumer" } }

def exDepWorld : ComponentWorld :=
  { exWorldRelFail with
    relationshipCallsFail := false
    depQueryComponent := some { relationships := [exDepRelNode] } }

/-- A component world where `c-1` has no dependents. -/
def exDepFreeWorld : ComponentWorld :=
  { exWorldRelFail with relationshipCallsFail := false }

/-- A component world whose dependency-check query throws. -/
def exDepThrowWorld : ComponentWorld :=
  { exWorldRelFail with
    relationshipCallsFail := false
    depQueryThrows := true }

/-- The metrics list a fresh read (empty cache) would obtain from the
remote, when it succeeds. -/
def freshMetrics (w : ScorecardWorld) : Option (List MetricResponseDto) :=
  (getAllMetrics w.metricWorld).toOption

/-- The scorecard list a fresh read (empty caches) would obtain from the
remote, when it succeeds: raw scorecards enriched and mapped against the
freshly fetched metrics. -/
def freshScorecardList (w : ScorecardWorld) :
    Option (List ScorecardResponseDto) :=
  match w.scorecardsResult, getAllMetrics w.metricWorld with
  | some rawScorecards, .ok metricsList =>
    some (rawScorecards.map fun sc =>
      mapToScorecardResponseDto (rawToMapInput metricsList sc) metricsList none)
  | _, _ => none

/-- A placeholder update-result value (used only to name a component of a
computed pair in closed statements). -/
def exDummyUpdateResult : ScorecardResponseDto × List ChangeRecord :=
  (exDummyScorecard, [])

/-! ### Lemmas about the map and diff helpers -/

theorem mem_keys_jsMapEntries {α : Type _} (l : List (String × α)) (k : String) :
    k ∈ (jsMapEntries l).map (·.1) ↔ k ∈ l.map (·.1) := by
  induction l with
  | nil => simp [jsMapEntries]
  | cons kv rest ih =>
    obtain ⟨k0, v⟩ := kv
    simp only [jsMapEntries, List.map_cons, List.mem_cons]
    constructor
    · rintro (h | h)
      · exact Or.inl h
      · obtain ⟨p, hp, hpk⟩ := List.mem_map.mp h
        exact Or.inr (ih.mp (List.mem_map.mpr
          ⟨p, (List.mem_filter.mp hp).1, hpk⟩))
    · rintro (h | h)
      · exact Or.inl h
      · by_cases hk : k = k0
        · exact Or.inl hk
        · obtain ⟨p, hp, hpk⟩ := List.mem_map.mp (ih.mpr h)
          refine Or.inr (List.mem_map.mpr
            ⟨p, List.mem_filter.mpr ⟨hp, ?_⟩, hpk⟩)
          subst hpk
          simpa [bne_iff_ne] using hk

theorem mem_of_mem_jsMapEntries {α : Type _} {l : List (String × α)}
    {p : String × α} (h : p ∈ jsMapEntries l) : p ∈ l := by
  induction l with
  | nil => simp [jsMapEntries] at h
  | cons kv rest ih =>
    obtain ⟨k0, v⟩ := kv
    simp only [jsMapEntries, List.mem_cons] at h
    rcases h with h | h
    · subst h
      cases hlv : lastVal k0 rest with
      | none => simp [hlv]
      | some w =>
        have : w ∈ rest.filterMap fun q => if q.1 == k0 then some q.2 else none := by
          have hw : w ∈ (rest.filterMap
              fun q => if q.1 == k0 then some q.2 else none).getLast? := by
            simpa [Option.mem_def, lastVal] using hlv
          obtain ⟨hne, rfl⟩ := List.mem_getLast?_eq_getLast hw
          exact List.getLast_mem hne
        obtain ⟨q, hq, hqv⟩ := List.mem_filterMap.mp this
        by_cases hqk : q.1 = k0
        · simp only [hqk, beq_self_eq_true, if_true, Option.some.injEq] at hqv
          right
          have : q = (k0, w) := by
            cases q
            simp_all
          simpa [hlv] using this ▸ hq
        · simp [hqk] at hqv
    · exact List.mem_cons_of_mem _ (ih (List.mem_filter.mp h).1)

theorem jsMapGet_isNone_iff {α : Type _} (l : List (String × α)) (k : String) :
    jsMapGet l k = none ↔ k ∉ l.map (·.1) := by
  unfold jsMapGet
  rw [Option.map_eq_none', List.find?_eq_none, ← mem_keys_jsMapEntries]
  constructor
  · intro h hk
    obtain ⟨p, hp, hpk⟩ := List.mem_map.mp hk
    exact absurd (by simpa [hpk]) (by simpa using h p hp)
  · intro h p hp hpk
    exact h (List.mem_map.mpr ⟨p, hp, by simpa using hpk⟩)

theorem jsMapGet_isSome_iff {α : Type _} (l : List (String × α)) (k : String) :
    (∃ v, jsMapGet l k = some v) ↔ k ∈ l.map (·.1) := by
  rw [← Option.isSome_iff_exists]
  rcases h : jsMapGet l k with _ | v
  · simpa [h] using (jsMapGet_isNone_iff l k).mp h
  · have : k ∈ l.map (·.1) := by
      by_contra hk
      rw [← jsMapGet_isNone_iff l k] at hk
      simp [h] at hk
    simpa [h]

theorem jsMapGet_mem {α : Type _} {l : List (String × α)} {k : String} {v : α}
    (h : jsMapGet l k = some v) : (k, v) ∈ l := by
  unfold jsMapGet at h
  obtain ⟨p, hp, hpv⟩ := Option.map_eq_some'.mp h
  have hpk : p.1 = k := by simpa using List.find?_some hp
  have := mem_of_mem_jsMapEntries (List.mem_of_find?_eq_some hp)
  cases p
  simp_all

theorem pair_fst_of_mem_keyed {α : Type _} {key : α → String} {l : List α}
    {p : String × α} (h : p ∈ l.map fun c => (key c, c)) : p.1 = key p.2 := by
  obtain ⟨c, _, rfl⟩ := List.mem_map.mp h
  rfl

theorem keys_of_keyed {α : Type _} (key : α → String) (l : List α) :
    (l.map fun c => (key c, c)).map (·.1) = l.map key := by
  simp [List.map_map, Function.comp]

theorem createCriteria_name_mem_iff (E : List CriteriaResponse)
    (D : List CriteriaInput) (k : String) :
    k ∈ (scorecardCriteriaDiff E D).createCriteria.map (·.name) ↔
      (k ∈ D.map (·.hasMetricValue.name) ∧ k ∉ E.map (·.name)) := by
  unfold scorecardCriteriaDiff
  simp only [List.mem_map, List.mem_filterMap]
  constructor
  · rintro ⟨entry, ⟨p, hp, hpe⟩, hname⟩
    rcases hget : jsMapGet (E.map fun c => (c.name, c)) p.1 with _ | e
    · rw [hget] at hpe
      simp only [Option.some.injEq] at hpe
      have hkey : p.1 = p.2.hasMetricValue.name :=
        pair_fst_of_mem_keyed (mem_of_mem_jsMapEntries hp)
      have hek : entry.name = p.1 := by rw [← hpe, hkey]
      have hk : p.1 = k := by rw [← hek, hname]
      subst hk
      constructor
      · have := (mem_keys_jsMapEntries (D.map fun c => (c.hasMetricValue.name, c))
          p.1).mp (List.mem_map.mpr ⟨p, hp, rfl⟩)
        rw [keys_of_keyed] at this
        exact List.mem_map.mp this
      · have := (jsMapGet_isNone_iff (E.map fun c => (c.name, c)) p.1).mp hget
        rw [keys_of_keyed] at this
        exact fun hc => this (List.mem_map.mpr hc)
    · rw [hget] at hpe
      simp at hpe
  · rintro ⟨hD, hE⟩
    have hkeys : k ∈ (jsMapEntries (D.map fun c =>
        (c.hasMetricValue.name, c))).map (·.1) := by
      rw [mem_keys_jsMapEntries, keys_of_keyed]
      exact List.mem_map.mpr hD
    obtain ⟨p, hp, hpk⟩ := List.mem_map.mp hkeys
    have hget : jsMapGet (E.map fun c => (c.name, c)) p.1 = none := by
      rw [jsMapGet_isNone_iff, keys_of_keyed, hpk]
      exact fun hc => hE (List.mem_map.mp hc)
    refine ⟨_, ⟨p, hp, by rw [hget]⟩, ?_⟩
    have hkey : p.1 = p.2.hasMetricValue.name :=
      pair_fst_of_mem_keyed (mem_of_mem_jsMapEntries hp)
    simp [← hkey, hpk]

theorem updateCriteria_name_mem_iff (E : List CriteriaResponse)
    (D : List CriteriaInput) (k : String) :
    k ∈ (scorecardCriteriaDiff E D).updateCriteria.map (·.name) ↔
      (k ∈ D.map (·.hasMetricValue.name) ∧ k ∈ E.map (·.name)) := by
  unfold scorecardCriteriaDiff
  simp only [List.mem_map, List.mem_filterMap]
  constructor
  · rintro ⟨entry, ⟨p, hp, hpe⟩, hname⟩
    rcases hget : jsMapGet (E.map fun c => (c.name, c)) p.1 with _ | e
    · rw [hget] at hpe
      simp at hpe
    · rw [hget] at hpe
      simp only [Option.some.injEq] at hpe
      have hek : entry.name = e.name := by rw [← hpe]
      have hin : (p.1, e) ∈ E.map fun c => (c.name, c) := jsMapGet_mem hget
      have hkey : p.1 = e.name := pair_fst_of_mem_keyed hin
      have hk : p.1 = k := by rw [hkey, ← hek, hname]
      subst hk
      constructor
      · have := (mem_keys_jsMapEntries (D.map fun c => (c.hasMetricValue.name, c))
          p.1).mp (List.mem_map.mpr ⟨p, hp, rfl⟩)
        rw [keys_of_keyed] at this
        exact List.mem_map.mp this
      · have : ∃ v, jsMapGet (E.map fun c => (c.name, c)) p.1 = some v := ⟨e, hget⟩
        rw [jsMapGet_isSome_iff, keys_of_keyed] at this
        exact List.mem_map.mp this
  · rintro ⟨hD, hE⟩
    have hkeys : k ∈ (jsMapEntries (D.map fun c =>
        (c.hasMetricValue.name, c))).map (·.1) := by
      rw [mem_keys_jsMapEntries, keys_of_keyed]
      exact List.mem_map.mpr hD
    obtain ⟨p, hp, hpk⟩ := List.mem_map.mp hkeys
    have hsome : ∃ v, jsMapGet (E.map fun c => (c.name, c)) p.1 = some v := by
      rw [jsMapGet_isSome_iff, keys_of_keyed, hpk]
      exact List.mem_map.mpr hE
    obtain ⟨e, hget⟩ := hsome
    refine ⟨_, ⟨p, hp, by rw [hget]⟩, ?_⟩
    have hkey : p.1 = e.name := pair_fst_of_mem_keyed (jsMapGet_mem hget)
    simp [← hkey, hpk]

theorem deleteCriteria_eq (E : List CriteriaResponse) (D : List CriteriaInput) :
    (scorecardCriteriaDiff E D).deleteCriteriaIds =
      (E.filter fun c =>
        decide (c.name ∉ D.map (·.hasMetricValue.name))).map
        fun c => { id := c.metricDefinitionId } := by
  unfold scorecardCriteriaDiff
  have hcond : ∀ c : CriteriaResponse,
      (jsMapGet (D.map fun d => (d.hasMetricValue.name, d)) c.name).isNone =
        decide (c.name ∉ D.map (·.hasMetricValue.name)) := by
    intro c
    by_cases h : c.name ∈ D.map (·.hasMetricValue.name)
    · have : ∃ v, jsMapGet (D.map fun d => (d.hasMetricValue.name, d)) c.name
          = some v := by
        rw [jsMapGet_isSome_iff, keys_of_keyed]
        exact h
      obtain ⟨v, hv⟩ := this
      simp [hv, h]
    · have : jsMapGet (D.map fun d => (d.hasMetricValue.name, d)) c.name
          = none := by
        rw [jsMapGet_isNone_iff, keys_of_keyed]
        exact h
      simp [this, h]
  induction E with
  | nil => rfl
  | cons c E ih =>
    simp only [List.filterMap_cons, List.filter_cons, hcond c]
    by_cases h : c.name ∈ D.map (·.hasMetricValue.name)
    · simpa [h] using ih
    · simpa [h] using ih

theorem dependencyDiff_add_mem_iff (cur new : List String) (k : String) :
    k ∈ (dependencyDiff cur new).dependenciesToAdd ↔ (k ∈ new ∧ k ∉ cur) := by
  simp [dependencyDiff, List.mem_filter]

theorem dependencyDiff_remove_mem_iff (cur new : List String) (k : String) :
    k ∈ (dependencyDiff cur new).dependenciesToRemove ↔
      (k ∈ cur ∧ k ∉ new) := by
  simp [dependencyDiff, List.mem_filter]

theorem scGetMetrics_cleared_ok (w : ScorecardWorld)
    {ms : List MetricResponseDto} {s' : ScorecardCacheState}
    (h : scGetMetrics w clearedCaches = (.ok ms, s')) :
    freshMetrics w = some ms ∧
    s' = { metricsCache := freshMetrics w, scorecardListCache := none } := by
  unfold scGetMetrics clearedCaches at h
  cases hm : getAllMetrics w.metricWorld with
  | error e => rw [hm] at h; simp at h
  | ok ms0 =>
    rw [hm] at h
    simp only [Prod.mk.injEq, Except.ok.injEq] at h
    obtain ⟨h1, h2⟩ := h
    subst h1
    constructor
    · simp [freshMetrics, hm, Except.toOption]
    · rw [← h2]
      simp [freshMetrics, hm, clearedCaches, Except.toOption]

theorem getAllScorecards_cleared_ok (w : ScorecardWorld)
    {l : List ScorecardResponseDto} {s' : ScorecardCacheState}
    (h : getAllScorecards w clearedCaches false = (.ok l, s')) :
    freshScorecardList w = some l ∧
    s' = { metricsCache := freshMetrics w, scorecardListCache := some l } := by
  unfold getAllScorecards at h
  simp only [clearedCaches] at h
  unfold getAllScorecards.getAllScorecardsFetch at h
  cases hr : w.scorecardsResult with
  | none => rw [hr] at h; simp at h
  | some rawScorecards =>
    rw [hr] at h
    rcases hsc : scGetMetrics w clearedCaches with ⟨rm, sm⟩
    rw [show ({ metricsCache := none, scorecardListCache := none } :
      ScorecardCacheState) = clearedCaches from rfl, hsc] at h
    cases rm with
    | error e => simp at h
    | ok metricsList =>
      obtain ⟨hfm, hsm⟩ := scGetMetrics_cleared_ok w hsc
      have hgm : getAllMetrics w.metricWorld = .ok metricsList := by
        simp only [freshMetrics] at hfm
        cases hm : getAllMetrics w.metricWorld with
        | error e => rw [hm] at hfm; simp [Except.toOption] at hfm
        | ok ms0 =>
          rw [hm] at hfm
          simp only [Except.toOption, Option.some.injEq] at hfm
          rw [hfm]
      simp only [Prod.mk.injEq, Except.ok.injEq] at h
      obtain ⟨h1, h2⟩ := h
      constructor
      · simp only [freshScorecardList, hr, hgm, h1]
      · rw [← h2, hsm]
        simp [h1]

theorem getScorecard_cleared_ok (w : ScorecardWorld) (id : String)
    {sc : ScorecardResponseDto} {s' : ScorecardCacheState}
    (h : getScorecard w clearedCaches id = (.ok sc, s')) :
    ∃ l, freshScorecardList w = some l ∧
      s' = { metricsCache := freshMetrics w, scorecardListCache := some l } := by
  unfold getScorecard at h
  rcases hga : getAllScorecards w clearedCaches false with ⟨r1, s1⟩
  rw [hga] at h
  cases r1 with
  | error e => simp at h
  | ok allScorecards =>
    obtain ⟨hl, hs⟩ := getAllScorecards_cleared_ok w hga
    cases hf : allScorecards.find? fun x => x.id == id with
    | none => simp [hf] at h
    | some sc0 =>
      simp only [hf, Prod.mk.injEq, Except.ok.injEq] at h
      exact ⟨allScorecards, hl, by rw [← h.2, hs]⟩

/-- The tail of a successful `updateScorecard` run: after the mutation
succeeded and the caches were cleared, the re-fetch leaves both caches
holding exactly the fresh remote reads. -/
theorem updateScorecard_tail_ok (w : ScorecardWorld) (id : String)
    (existingScorecard : ScorecardResponseDto) (criteria : List CriteriaInput)
    (s2 : ScorecardCacheState)
    (r : ScorecardResponseDto × List ChangeRecord) (s' : ScorecardCacheState)
    (h : (match getScorecard w s2 id with
          | (.error e, s3) => (.error e, s3)
          | (.ok existingScorecard2, s3) =>
            let _diff := scorecardCriteriaDiff existingScorecard2.criterias
              criteria
            if !w.updateSuccess then
              ((.error (.badRequest ("Failed to update scorecard: " ++
                (w.updateErrors.head?.getD
                  "Unknown error during scorecard update"))) :
                Except ServiceError
                  (ScorecardResponseDto × List ChangeRecord)), s3)
            else
              match getScorecard w clearedCaches id with
              | (.error e, s5) => (.error e, s5)
              | (.ok updatedScorecardData, s5) =>
                (.ok (updatedScorecardData,
                  scorecardGenerateChangeLog existingScorecard
                    updatedScorecardData), s5)) = (.ok r, s')) :
    s' = { metricsCache := freshMetrics w,
           scorecardListCache := freshScorecardList w } ∧
    freshScorecardList w ≠ none := by
  rcases hg2 : getScorecard w s2 id with ⟨r2, s3⟩
  rw [hg2] at h
  cases r2 with
  | error e => simp at h
  | ok existingScorecard2 =>
    simp only [] at h
    by_cases hu : (!w.updateSuccess) = true
    · rw [if_pos hu] at h
      simp at h
    · rw [if_neg hu] at h
      rcases hg3 : getScorecard w clearedCaches id with ⟨r3, s5⟩
      rw [hg3] at h
      cases r3 with
      | error e => simp at h
      | ok updatedScorecardData =>
        simp only [Prod.mk.injEq, Except.ok.injEq] at h
        obtain ⟨l, hl, hs5⟩ := getScorecard_cleared_ok w id hg3
        refine ⟨?_, by simp [hl]⟩
        rw [← h.2, hs5, hl]

/-! ### Claims -/

/-- C1 (amended): for every existing list `E` and desired list `D` of
keyed child items, the computed diff partitions keys exactly for
scorecard criteria — the create keys are exactly `keys(D) − keys(E)`, the
update keys exactly `keys(D) ∩ keys(E)`, and a delete entry arises from
exactly the existing items whose keys are absent from `D` — while for
component dependencies the add set is exactly `keys(D) − keys(E)` and the
remove set exactly `keys(E) − keys(D)`, and a key present in both lists
produces no operation at all (the dependency reconciliation has no update
set). -/
theorem c1_diff_key_partition (E : List CriteriaResponse)
    (D : List CriteriaInput) (cur new : List String) (k : String) :
    (k ∈ (scorecardCriteriaDiff E D).createCriteria.map (·.name) ↔
      (k ∈ D.map (·.hasMetricValue.name) ∧ k ∉ E.map (·.name))) ∧
    (k ∈ (scorecardCriteriaDiff E D).updateCriteria.map (·.name) ↔
      (k ∈ D.map (·.hasMetricValue.name) ∧ k ∈ E.map (·.name))) ∧
    ((scorecardCriteriaDiff E D).deleteCriteriaIds =
      (E.filter fun c =>
        decide (c.name ∉ D.map (·.hasMetricValue.name))).map
        fun c => { id := c.metricDefinitionId }) ∧
    (k ∈ (dependencyDiff cur new).dependenciesToAdd ↔ (k ∈ new ∧ k ∉ cur)) ∧
    (k ∈ (dependencyDiff cur new).dependenciesToRemove ↔ (k ∈ cur ∧ k ∉ new)) :=
  ⟨createCriteria_name_mem_iff E D k, updateCriteria_name_mem_iff E D k,
    deleteCriteria_eq E D, dependencyDiff_add_mem_iff cur new k,
    dependencyDiff_remove_mem_iff cur new k⟩

/-- C1 counterexample: for the component-dependency instance of the
claim, with the key `"a"` present in both the existing and the desired
list, the computed diff contains no operation at all — there is no
update set whose keys are `keys(E) ∩ keys(D) = {"a"}`, contradicting the
claim as stated. -/
theorem c1_counterexample :
    dependencyDiff ["a"] ["a"] =
      { dependenciesToRemove := [], dependenciesToAdd := [] } ∧
    "a" ∈ (["a"] : List String) ∧ "a" ∈ (["a"] : List String) := by
  refine ⟨by decide, by decide, by decide⟩

/-- C2 (amended): for every child key present in both the existing and
the desired criteria collection, the update operation submitted to the
remote service is built entirely from the *existing* criterion — its
sub-resource `id`, and also its `weight`, `name` and
`metricDefinitionId`; the desired item's new field values (weight,
comparator, comparator value) are not carried at all. -/
theorem c2_update_entry_uses_existing_values (E : List CriteriaResponse)
    (D : List CriteriaInput) (k : String) (e : CriteriaResponse)
    (hget : jsMapGet (E.map fun c => (c.name, c)) k = some e)
    (hD : k ∈ D.map (·.hasMetricValue.name)) :
    ({ id := e.id, weight := toString e.weight, name := e.name,
       metricDefinitionId := e.metricDefinitionId } : UpdateCriteriaEntry) ∈
      (scorecardCriteriaDiff E D).updateCriteria := by
  have hkeys : k ∈ (jsMapEntries (D.map fun c =>
      (c.hasMetricValue.name, c))).map (·.1) := by
    rw [mem_keys_jsMapEntries, keys_of_keyed]
    exact hD
  obtain ⟨p, hp, hpk⟩ := List.mem_map.mp hkeys
  show _ ∈ (jsMapEntries (D.map fun c => (c.hasMetricValue.name, c))).filterMap _
  refine List.mem_filterMap.mpr ⟨p, hp, ?_⟩
  rw [hpk, hget]

/-- C2 witness: the amended statement at a concrete input. -/
theorem c2_update_entry_uses_existing_values_witness :
    jsMapGet ([exCriterion].map fun c => (c.name, c)) "m" = some exCriterion ∧
    "m" ∈ [exDesired].map (·.hasMetricValue.name) ∧
    ({ id := "c1", weight := "1", name := "m",
       metricDefinitionId := "md1" } : UpdateCriteriaEntry) ∈
      (scorecardCriteriaDiff [exCriterion] [exDesired]).updateCriteria :=
  ⟨by decide, by decide,
    c2_update_entry_uses_existing_values [exCriterion] [exDesired] "m"
      exCriterion (by decide) (by decide)⟩

/-- C2 counterexample: the existing criterion has weight `1`, the desired
criterion for the same key `"m"` has weight `2`, comparator
`"GREATER_THAN"` and comparator value `7`; yet the single update
operation carries weight `"1"` (the existing value, not the desired
`"2"`) and has no comparator or comparator-value field at all, so the
update does *not* carry the desired item's new field values. -/
theorem c2_counterexample :
    (scorecardCriteriaDiff [exCriterion] [exDesired]).updateCriteria =
      [{ id := "c1", weight := "1", name := "m",
         metricDefinitionId := "md1" }] ∧
    exDesired.hasMetricValue.weight = 2 ∧
    toString exDesired.hasMetricValue.weight = "2" ∧
    ("1" : String) ≠ "2" ∧
    exDesired.hasMetricValue.comparator = "GREATER_THAN" ∧
    exDesired.hasMetricValue.comparatorValue = 7 := by
  refine ⟨by decide, by decide, by decide, by decide, by decide, by decide⟩

/-- C3 (amended): component create validation is fail-fast, one field at
a time.  An invalid `typeId` fails immediately with a plain-message
`BadRequestException` naming only the typeId, whatever else is invalid;
with a valid `typeId` and no name collision, the dependency check fails
on the *first* unresolvable dependency with a `details` list containing
exactly that one field violation. -/
theorem c3_validation_fail_fast (w : ComponentWorld) (name typeId : String)
    (deps : List String) (hname : name ≠ "") :
    (typeId ∉ validTypeIds →
      createComponent w
        { component := none,
          spec := some { name := some name, typeId := typeId,
                         dependsOn := some deps } } =
        .error (.badRequest ("Invalid typeId '" ++ typeId ++
          "'. Must be one of: " ++ String.intercalate ", " validTypeIds))) ∧
    (∀ (allComponents : List ComponentResponseDto) (d0 : String),
      typeId ∈ validTypeIds →
      getAllComponents w = .ok allComponents →
      name ∉ allComponents.map (·.name) →
      (deps.find? fun dep =>
        !((allComponents.map (·.name)).contains dep)) = some d0 →
      createComponent w
        { component := none,
          spec := some { name := some name, typeId := typeId,
                         dependsOn := some deps } } =
        .error (.validation "Component validation failed"
          [("spec.dependsOn", "Dependency '" ++ d0 ++ "' not found")])) := by
  have h1 : (name != "") = true := by simpa [bne_iff_ne] using hname
  constructor
  · intro hbad
    have h2 : validTypeIds.contains typeId = false := by simpa using hbad
    simp only [createComponent, jsOrObj, jsOrS, jsTruthyS, Option.bind, h1,
      Bool.not_true, Option.getD]
    rw [if_neg (by simp [hname])]
    rw [if_pos (by simpa using hbad)]
  · intro allComponents d0 hmem hall hnew hfind
    have h2 : validTypeIds.contains typeId = true := by simpa using hmem
    have hfindnone : allComponents.find? (fun c => c.name == name) = none := by
      rw [List.find?_eq_none]
      intro c hc hbeq
      exact hnew (List.mem_map.mpr ⟨c, hc, by simpa using hbeq⟩)
    have h3 : getComponentByName w name =
        .error (.notFound ("Component with name '" ++ name ++ "' not found")) := by
      simp [getComponentByName, hall, hfindnone]
    have hlen : 0 < deps.length := by
      cases deps with
      | nil => simp at hfind
      | cons a as => simp
    simp only [createComponent, jsOrObj, jsOrS, jsTruthyS, Option.bind, h1,
      Bool.not_true, Option.getD]
    rw [if_neg (by simp [hname])]
    rw [if_neg (by simpa using hmem)]
    simp only [if_true]
    rw [h3]
    rw [if_pos (by simpa using hlen), hall]
    simp only [hfind]

/-- C3 counterexample: against an empty remote catalog, a create request
with an invalid `typeId` *and* an unresolvable dependency fails with a
plain-message error naming only the typeId (no list of all violated
fields); and a request with two unresolvable dependencies fails with a
`details` list containing only the first one. -/
theorem c3_counterexample :
    createComponent exWorldEmpty exDtoInvalidTypeAndDep =
      .error (.badRequest
        "Invalid typeId 'BOGUS'. Must be one of: SERVICE, LIBRARY, WEBSITE, APPLICATION, TEMPLATE, RUNTIME") ∧
    createComponent exWorldEmpty exDtoTwoBadDeps =
      .error (.validation "Component validation failed"
        [("spec.dependsOn", "Dependency 'g1' not found")]) := by
  refine ⟨by decide, by decide⟩

/-- C3 witness: the amended statement at a concrete input. -/
theorem c3_validation_fail_fast_witness :
    ("svc" : String) ≠ "" ∧
    ("BOGUS" : String) ∉ validTypeIds ∧
    createComponent exWorldEmpty
      { component := none,
        spec := some { name := some "svc", typeId := "BOGUS",
                       dependsOn := some ["ghost"] } } =
      .error (.badRequest ("Invalid typeId '" ++ "BOGUS" ++
        "'. Must be one of: " ++ String.intercalate ", " validTypeIds)) :=
  ⟨by decide, by decide,
    (c3_validation_fail_fast exWorldEmpty "svc" "BOGUS" ["ghost"]
      (by decide)).1 (by decide)⟩

/-- C4 (amended): a create for an already-used name fails with a
Conflict whose message carries the existing resource's assigned id for
Components and Metrics; for Scorecards the Conflict message names only
the scorecard name and does *not* carry the existing id. -/
theorem c4_create_conflict_reporting :
    (∀ (w : ComponentWorld) (name typeId : String) (deps : List String)
      (c : ComponentResponseDto), name ≠ "" → typeId ∈ validTypeIds →
      getComponentByName w name = .ok c →
      createComponent w
        { component := none,
          spec := some { name := some name, typeId := typeId,
                         dependsOn := some deps } } =
        .error (.conflict ("Component with name '" ++ name ++
          "' already exists. Existing ID: " ++ c.id))) ∧
    (∀ (w : MetricWorld) (dto : CreateMetricDto) (spec : MetricSpecInput)
      (m : MetricResponseDto), dto.kind = "Metric" → dto.metadataName ≠ "" →
      dto.spec = some spec →
      getMetricByName w dto.metadataName = .ok m →
      createMetric w dto = .error (.conflict ("Metric with name '" ++
        dto.metadataName ++ "' already exists. Existing ID: " ++ m.id))) ∧
    (∀ (w : ScorecardWorld) (s s1 : ScorecardCacheState)
      (dto : CreateScorecardDto) (spec : ScorecardSpecInput)
      (sc : ScorecardResponseDto),
      dto.kind = "Scorecard" → dto.metadataName ≠ "" → dto.spec = some spec →
      getScorecardByName w s dto.metadataName = (.ok sc, s1) →
      createScorecard w s dto = (.error (.conflict ("Scorecard with name '" ++
        dto.metadataName ++ "' already exists.")), s1)) := by
  refine ⟨?_, ?_, ?_⟩
  · intro w name typeId deps c hname hmem hok
    have h1 : (name != "") = true := by simpa [bne_iff_ne] using hname
    simp only [createComponent, jsOrObj, jsOrS, jsTruthyS, Option.bind, h1,
      Bool.not_true, Option.getD]
    rw [if_neg (by simp [hname])]
    rw [if_neg (by simpa using hmem)]
    simp only [if_true]
    rw [hok]
  · intro w dto spec m hkind hname hspec hok
    have hk : (dto.kind != "Metric") = false := by simp [hkind]
    have hn : (dto.metadataName == "") = false := by
      simpa using hname
    simp only [createMetric, hk, hn, Bool.false_eq_true, if_false, hspec]
    rw [hok]
  · intro w s s1 dto spec sc hkind hname hspec hok
    have hk : (dto.kind != "Scorecard") = false := by simp [hkind]
    have hn : (dto.metadataName == "") = false := by
      simpa using hname
    simp only [createScorecard, hk, hn, Bool.false_eq_true, if_false, hspec]
    rw [hok]

/-- C4 counterexample: two scorecard worlds that differ only in the
existing scorecard's assigned id (`sc-A` vs `sc-B`) produce the *same*
Conflict error on a colliding create — the error names only the
scorecard's name and does not contain the assigned id. -/
theorem c4_counterexample :
    (createScorecard (exScWorld "sc-A") clearedCaches exCreateScorecardDto).1 =
      .error (.conflict "Scorecard with name 'quality' already exists.") ∧
    (createScorecard (exScWorld "sc-B") clearedCaches exCreateScorecardDto).1 =
      .error (.conflict "Scorecard with name 'quality' already exists.") ∧
    strIncludes "Scorecard with name 'quality' already exists." "sc-A" = false := by
  refine ⟨by decide, by decide, by decide⟩

/-- C4 witness: the amended statement at concrete inputs for all three
resource kinds. -/
theorem c4_create_conflict_reporting_witness :
    (getComponentByName exWorldWithComponent "svc" =
      .ok (mapComponentToResponseDto exGqlComponent) ∧
     createComponent exWorldWithComponent
       { component := none,
         spec := some { name := some "svc", typeId := "SERVICE",
                        dependsOn := some [] } } =
       .error (.conflict ("Component with name '" ++ "svc" ++
         "' already exists. Existing ID: " ++
         (mapComponentToResponseDto exGqlComponent).id))) ∧
    (getMetricByName exMetricWorld "m" =
      .ok (mapToMetricResponseDto exGqlMetric) ∧
     createMetric exMetricWorld exCreateMetricDto =
       .error (.conflict ("Metric with name '" ++ "m" ++
         "' already exists. Existing ID: " ++
         (mapToMetricResponseDto exGqlMetric).id))) ∧
    createScorecard (exScWorld "sc-A") clearedCaches exCreateScorecardDto =
      (.error (.conflict ("Scorecard with name '" ++ "quality" ++
        "' already exists.")),
       (getScorecardByName (exScWorld "sc-A") clearedCaches "quality").2) :=
  ⟨⟨by decide,
    c4_create_conflict_reporting.1 exWorldWithComponent "svc" "SERVICE" []
      (mapComponentToResponseDto exGqlComponent) (by decide) (by decide)
      (by decide)⟩,
   ⟨by decide,
    c4_create_conflict_reporting.2.1 exMetricWorld exCreateMetricDto
      { name := "m", description := none, formatUnit := none,
        gradingSystem := none }
      (mapToMetricResponseDto exGqlMetric) rfl (by decide) rfl (by decide)⟩,
   c4_create_conflict_reporting.2.2 (exScWorld "sc-A") clearedCaches
     (getScorecardByName (exScWorld "sc-A") clearedCaches "quality").2
     exCreateScorecardDto exScSpec
     ((getScorecardByName (exScWorld "sc-A") clearedCaches
       "quality").1.toOption.getD exDummyScorecard)
     rfl (by decide) rfl (by decide)⟩

/-- C5: when the primary create or update mutation succeeds, a failure of
the subsequent dependency-relationship reconciliation is swallowed: the
operation still returns the successfully created/updated resource.  The
conclusions do not depend on `relationshipCallsFail`, and when the
relationship sub-calls do fail the reconciliation body provably throws
(and is caught). -/
theorem c5_secondary_relationship_failure_swallowed :
    (∀ (w : ComponentWorld) (name typeId : String) (deps : List String)
      (allComponents : List ComponentResponseDto) (created : GqlComponent),
      name ≠ "" → typeId ∈ validTypeIds →
      getComponentByName w name =
        .error (.notFound ("Component with name '" ++ name ++ "' not found")) →
      getAllComponents w = .ok allComponents →
      (deps.find? fun dep =>
        !((allComponents.map (·.name)).contains dep)) = none →
      deps ≠ [] →
      w.createResult = some created →
      (createComponent w
        { component := none,
          spec := some { name := some name, typeId := typeId,
                         dependsOn := some deps } } =
        .ok (mapComponentToResponseDto created) ∧
       (w.relationshipCallsFail = true → ∃ msg,
         createDependencyRelationshipsAttempt w deps = .error msg))) ∧
    (∀ (w : ComponentWorld) (id : String) (g updated : GqlComponent)
      (spec : UpdateComponentSpec) (deps : List String)
      (allComponents : List ComponentResponseDto),
      w.byId id = some g →
      spec.dependsOn = some deps →
      (jsTruthyS spec.typeId &&
        !(validTypeIds.contains (spec.typeId.getD ""))) = false →
      getAllComponents w = .ok allComponents →
      (deps.find? fun dep =>
        !((allComponents.map (·.name)).contains dep)) = none →
      w.updateResult = some updated →
      updateComponent w id { spec := some spec } =
        .ok (mapComponentToResponseDto updated,
          componentGenerateChangeLog (mapComponentToResponseDto g)
            (mapComponentToResponseDto updated))) := by
  constructor
  · intro w name typeId deps allComponents created hname hmem hnf hall hfind
      hne hcr
    have h1 : (name != "") = true := by simpa [bne_iff_ne] using hname
    constructor
    · simp only [createComponent, jsOrObj, jsOrS, jsTruthyS, Option.bind, h1,
        Bool.not_true, Option.getD]
      rw [if_neg (by simp [hname])]
      rw [if_neg (by simpa using hmem)]
      simp only [if_true]
      rw [hnf]
      rw [if_pos (by simpa using List.length_pos.mpr hne), hall]
      simp only [hfind]
      simp [createComponentSubmit, hcr]
    · intro hfail
      refine ⟨"relationship mutation failed", ?_⟩
      obtain ⟨d, deps0, hdeps0⟩ := List.exists_cons_of_ne_nil hne
      have hd : d ∈ allComponents.map (·.name) := by
        have hmem0 : d ∈ deps := by simp [hdeps0]
        have h := List.find?_eq_none.mp hfind d hmem0
        simp only [Bool.not_eq_true', Bool.not_eq_false] at h
        simpa using h
      have hsome : (jsMapGet (allComponents.map fun c =>
          (c.name, c.id)) d).isSome = true := by
        rw [Option.isSome_iff_exists, jsMapGet_isSome_iff]
        simpa [List.map_map, Function.comp] using hd
      have hb : (w.relationshipCallsFail && (deps.any fun dep =>
          (jsMapGet (allComponents.map fun c =>
            (c.name, c.id)) dep).isSome)) = true := by
        rw [hfail, Bool.true_and, List.any_eq_true]
        exact ⟨d, by simp [hdeps0], hsome⟩
      simp only [createDependencyRelationshipsAttempt, hall, hb, if_true]
  · intro w id g updated spec deps allComponents hbyid hdep htid hall hfind hupd
    have hg : getComponent w id = .ok (mapComponentToResponseDto g) := by
      simp [getComponent, hbyid]
    have hsub : updateComponentSubmit w id (mapComponentToResponseDto g)
        spec.dependsOn =
        .ok (mapComponentToResponseDto updated,
          componentGenerateChangeLog (mapComponentToResponseDto g)
            (mapComponentToResponseDto updated)) := by
      simp [updateComponentSubmit, hupd]
    simp only [updateComponent, hg]
    rw [if_neg (by rw [htid]; simp)]
    rcases deps with _ | ⟨d, ds⟩
    · rw [if_neg (by simp [hdep])]
      exact hsub
    · rw [if_pos (by simp [hdep]), hall]
      have hlist : spec.dependsOn.getD [] = d :: ds := by rw [hdep]; rfl
      simp only [hlist, hfind]
      exact hsub

/-- C5 witness: the statement at a concrete input where every
relationship sub-call fails (`relationshipCallsFail = true`) and yet both
create and update return the mutated resource. -/
theorem c5_secondary_relationship_failure_swallowed_witness :
    (("newsvc" : String) ≠ "" ∧ ("SERVICE" : String) ∈ validTypeIds ∧
     getComponentByName exWorldRelFail "newsvc" =
       .error (.notFound ("Component with name '" ++ "newsvc" ++
         "' not found")) ∧
     exWorldRelFail.createResult = some exCreatedGql ∧
     createComponent exWorldRelFail
       { component := none,
         spec := some { name := some "newsvc", typeId := "SERVICE",
                        dependsOn := some ["svc"] } } =
       .ok (mapComponentToResponseDto exCreatedGql) ∧
     (∃ msg, createDependencyRelationshipsAttempt exWorldRelFail ["svc"] =
       .error msg)) ∧
    (exWorldRelFail.byId "c-1" = some exGqlComponent ∧
     updateComponent exWorldRelFail "c-1"
       { spec := some { name := none, typeId := none,
                        dependsOn := some ["svc"] } } =
       .ok (mapComponentToResponseDto exCreatedGql,
         componentGenerateChangeLog (mapComponentToResponseDto exGqlComponent)
           (mapComponentToResponseDto exCreatedGql))) := by
  have h1 := (c5_secondary_relationship_failure_swallowed.1 exWorldRelFail
    "newsvc" "SERVICE" ["svc"]
    [mapComponentToResponseDto exGqlComponent] exCreatedGql
    (by decide) (by decide) (by decide) (by decide) (by decide) (by decide)
    (by decide))
  have h2 := (c5_secondary_relationship_failure_swallowed.2 exWorldRelFail
    "c-1" exGqlComponent exCreatedGql
    { name := none, typeId := none, dependsOn := some ["svc"] } ["svc"]
    [mapComponentToResponseDto exGqlComponent]
    (by decide) rfl (by decide) (by decide) (by decide) (by decide))
  exact ⟨⟨by decide, by decide, by decide, by decide, h1.1, h1.2 (by decide)⟩,
    ⟨by decide, h2⟩⟩

/-- C6: deleting a component that is the target of at least one
`DEPENDS_ON` edge fails with a Conflict listing each dependent by id and
name, without submitting the remote delete mutation; deleting a component
with zero dependents submits the mutation and (when the remote accepts)
succeeds. -/
theorem c6_delete_dependency_gate (w : ComponentWorld) (id : String)
    (g : GqlComponent) (hbyid : w.byId id = some g) :
    (checkDependencies w id ≠ [] →
      deleteComponent w id =
        (.error (.conflict ("Cannot delete component '" ++ id ++
          "' as it has active dependencies: " ++ String.intercalate ", "
            ((checkDependencies w id).map fun dep =>
              dep.name ++ " (ID: " ++ dep.id ++ ")"))), false)) ∧
    (checkDependencies w id = [] → w.deleteSuccess = true →
      deleteComponent w id =
        (.ok (id, "Component '" ++ id ++ "' deleted successfully."), true)) := by
  have hg : getComponent w id = .ok (mapComponentToResponseDto g) := by
    simp [getComponent, hbyid]
  constructor
  · intro hne
    simp only [deleteComponent, hg]
    rw [if_pos (by simpa using List.length_pos.mpr hne)]
  · intro hnil hds
    simp only [deleteComponent, hg]
    rw [if_neg (by simp [hnil])]
    rw [if_pos hds]

/-- C6 witness: the statement at concrete inputs — one world where the
component has a dependent (`consumer`), one where it has none. -/
theorem c6_delete_dependency_gate_witness :
    (exDepWorld.byId "c-1" = some exGqlComponent ∧
     checkDependencies exDepWorld "c-1" =
       [{ type := "component", id := "c-9", name := "consumer" }] ∧
     deleteComponent exDepWorld "c-1" =
       (.error (.conflict ("Cannot delete component '" ++ "c-1" ++
         "' as it has active dependencies: " ++ String.intercalate ", "
           ((checkDependencies exDepWorld "c-1").map fun dep =>
             dep.name ++ " (ID: " ++ dep.id ++ ")"))), false)) ∧
    (checkDependencies exDepFreeWorld "c-1" = [] ∧
     deleteComponent exDepFreeWorld "c-1" =
       (.ok ("c-1", "Component '" ++ "c-1" ++ "' deleted successfully."),
         true)) :=
  ⟨⟨by decide, by decide,
    (c6_delete_dependency_gate exDepWorld "c-1" exGqlComponent (by decide)).1
      (by decide)⟩,
   ⟨by decide,
    (c6_delete_dependency_gate exDepFreeWorld "c-1" exGqlComponent
      (by decide)).2 (by decide) (by decide)⟩⟩

/-- C7 (amended): the change-log builders compare collection fields by
`JSON.stringify` of the arrays, which is order-*sensitive*: a change
record for a collection field is emitted exactly when the two lists
differ as ordered lists, so a permutation of a collection's elements does
produce a change record.  Moreover the scorecard builder's criteria
comparison reads a `criterias` field that the spec object does not have,
so it emits its coarse criteria record unconditionally. -/
theorem c7_changelog_order_sensitive (o u : ComponentResponseDto)
    (so su : ScorecardResponseDto) :
    ((componentGenerateChangeLog o u).filter
        (fun r => r.field == "spec.labels") =
      if o.labels != u.labels then
        [{ field := "spec.labels", oldValue := .strList o.labels,
           newValue := .strList u.labels }] else []) ∧
    ((componentGenerateChangeLog o u).filter
        (fun r => r.field == "spec.links") =
      if o.links != u.links then
        [{ field := "spec.links", oldValue := .linkList o.links,
           newValue := .linkList u.links }] else []) ∧
    ((componentGenerateChangeLog o u).filter
        (fun r => r.field == "spec.dependsOn") =
      if o.dependsOn != u.dependsOn then
        [{ field := "spec.dependsOn", oldValue := .strList o.dependsOn,
           newValue := .strList u.dependsOn }] else []) ∧
    ((scorecardGenerateChangeLog so su).filter
        (fun r => r.field == "spec.componentTypeIds") =
      if so.spec.componentTypeIds != su.spec.componentTypeIds then
        [{ field := "spec.componentTypeIds",
           oldValue := .strList so.spec.componentTypeIds,
           newValue := .strList su.spec.componentTypeIds }] else []) ∧
    ((scorecardGenerateChangeLog so su).filter
        (fun r => r.field == "spec.criteria") =
      [{ field := "spec.criteria",
         oldValue := .str (toString
           (((none : Option (List SpecCriterion)).map List.length).getD 0) ++
           " criteria"),
         newValue := .str (toString su.spec.criteria.length ++
           " criteria") }]) := by
  refine ⟨?_, ?_, ?_, ?_, ?_⟩ <;>
    simp [componentGenerateChangeLog, scorecardGenerateChangeLog,
      List.filter_append, apply_ite (List.filter _)]

/-- C7 counterexample: two components equal in every tracked field except
that `labels` is permuted (`["a","b"]` vs `["b","a"]`, equal as sets)
produce a non-empty change log containing a `spec.labels` record, so the
change-log output is not invariant under permutation of a collection's
elements. -/
theorem c7_counterexample :
    List.Perm ["a", "b"] ["b", "a"] ∧
    componentGenerateChangeLog
      (mapComponentToResponseDto exGqlComponent)
      (mapComponentToResponseDto
        { exGqlComponent with labels := ["b", "a"] }) =
      [{ field := "spec.labels", oldValue := .strList ["a", "b"],
         newValue := .strList ["b", "a"] }] := by
  refine ⟨by decide, by decide⟩

/-- C8: along every successful path of the three scorecard mutations the
caches are invalidated (`clearCaches`) before any subsequent read, so the
final cache state is determined by the remote alone, never by the
pre-mutation cache: after a successful update both caches hold exactly
the fresh remote reads; after a successful create the scorecard-list
cache is empty and the metrics cache holds the fresh remote read; after a
successful delete both caches are empty. -/
theorem c8_mutations_invalidate_caches (w : ScorecardWorld)
    (s : ScorecardCacheState) :
    (∀ (id : String) (dto : CreateScorecardDto)
      (r : ScorecardResponseDto × List ChangeRecord)
      (s' : ScorecardCacheState),
      updateScorecard w s id dto = (.ok r, s') →
      s' = { metricsCache := freshMetrics w,
             scorecardListCache := freshScorecardList w } ∧
      freshScorecardList w ≠ none) ∧
    (∀ (dto : CreateScorecardDto) (r : ScorecardResponseDto)
      (s' : ScorecardCacheState),
      createScorecard w s dto = (.ok r, s') →
      s' = { metricsCache := freshMetrics w, scorecardListCache := none } ∧
      freshMetrics w ≠ none) ∧
    (∀ (id : String) (r : String × String) (s' : ScorecardCacheState),
      deleteScorecard w s id = (.ok r, s') → s' = clearedCaches) := by
  refine ⟨?_, ?_, ?_⟩
  · intro id dto r s' h
    simp only [updateScorecard] at h
    rcases hga : getScorecard w s id with ⟨r0, s1⟩
    rw [hga] at h
    cases r0 with
    | error e => simp at h
    | ok existingScorecard =>
      simp only [] at h
      by_cases hk : (dto.kind != "Scorecard") = true
      · rw [if_pos hk] at h
        simp at h
      · rw [if_neg hk] at h
        by_cases hn : (dto.metadataName == "") = true
        · rw [if_pos hn] at h
          simp at h
        · rw [if_neg hn] at h
          cases hspec : dto.spec with
          | none => simp [hspec] at h
          | some scorecardSpec =>
            simp only [hspec] at h
            by_cases hc : scorecardSpec.criteria.length > 0
            · rw [if_pos hc] at h
              rcases hm : scGetMetrics w s1 with ⟨rm, s2⟩
              rw [hm] at h
              cases rm with
              | error e => simp at h
              | ok metricsList =>
                simp only [] at h
                split at h
                · simp at h
                · exact updateScorecard_tail_ok w id existingScorecard
                    scorecardSpec.criteria s2 r s' h
            · rw [if_neg hc] at h
              exact updateScorecard_tail_ok w id existingScorecard
                scorecardSpec.criteria s1 r s' h
  · intro dto r s' h
    simp only [createScorecard] at h
    by_cases hk : (dto.kind != "Scorecard") = true
    · rw [if_pos hk] at h
      simp at h
    · rw [if_neg hk] at h
      by_cases hn : (dto.metadataName == "") = true
      · rw [if_pos hn] at h
        simp at h
      · rw [if_neg hn] at h
        cases hspec : dto.spec with
        | none => simp [hspec] at h
        | some scorecardSpec =>
          simp only [hspec] at h
          rcases hgn : getScorecardByName w s dto.metadataName with ⟨rn, s1⟩
          rw [hgn] at h
          cases rn with
          | ok sc => simp at h
          | error e =>
            cases e with
            | badRequest m => simp at h
            | validation m d => simp at h
            | fieldError f m => simp at h
            | conflict m => simp at h
            | notFound m =>
              simp only [] at h
              by_cases hcti : scorecardSpec.componentTypeIds.length = 0
              · rw [if_pos hcti] at h
                simp at h
              · rw [if_neg hcti] at h
                by_cases hcr : scorecardSpec.criteria.length = 0
                · rw [if_pos hcr] at h
                  simp at h
                · rw [if_neg hcr] at h
                  cases hres : w.createResult with
                  | none => simp [hres] at h
                  | some createdDetails =>
                    simp only [hres] at h
                    rcases hm : scGetMetrics w clearedCaches with ⟨rm, s3⟩
                    rw [hm] at h
                    cases rm with
                    | error e2 => simp at h
                    | ok metrics =>
                      obtain ⟨hfm, hs3⟩ := scGetMetrics_cleared_ok w hm
                      simp only [Prod.mk.injEq, Except.ok.injEq] at h
                      exact ⟨by rw [← h.2, hs3], by simp [hfm]⟩
  · intro id r s' h
    simp only [deleteScorecard] at h
    rcases hga : getScorecard w s id with ⟨r0, s1⟩
    rw [hga] at h
    cases r0 with
    | error e => simp at h
    | ok sc =>
      simp only [] at h
      by_cases hd : w.deleteSuccess = true
      · rw [if_pos hd] at h
        simp only [Prod.mk.injEq, Except.ok.injEq] at h
        exact h.2.symm
      · rw [if_neg hd] at h
        split at h <;> simp at h

/-- C8 witness: the statement at a concrete scorecard world where all
three mutations succeed. -/
theorem c8_mutations_invalidate_caches_witness :
    (updateScorecard (exScWorld "sc-1") clearedCaches "sc-1"
        exCreateScorecardDto).2 =
      { metricsCache := freshMetrics (exScWorld "sc-1"),
        scorecardListCache := freshScorecardList (exScWorld "sc-1") } ∧
    (createScorecard (exScWorld "sc-1") clearedCaches
        { exCreateScorecardDto with metadataName := "newcard" }).2 =
      { metricsCache := freshMetrics (exScWorld "sc-1"),
        scorecardListCache := none } ∧
    (deleteScorecard (exScWorld "sc-1") clearedCaches "sc-1").2 =
      clearedCaches :=
  ⟨((c8_mutations_invalidate_caches (exScWorld "sc-1") clearedCaches).1
      "sc-1" exCreateScorecardDto
      ((updateScorecard (exScWorld "sc-1") clearedCaches "sc-1"
        exCreateScorecardDto).1.toOption.getD exDummyUpdateResult)
      ((updateScorecard (exScWorld "sc-1") clearedCaches "sc-1"
        exCreateScorecardDto).2)
      (by decide)).1,
   ((c8_mutations_invalidate_caches (exScWorld "sc-1") clearedCaches).2.1
      { exCreateScorecardDto with metadataName := "newcard" }
      ((createScorecard (exScWorld "sc-1") clearedCaches
        { exCreateScorecardDto with
          metadataName := "newcard" }).1.toOption.getD exDummyScorecard)
      ((createScorecard (exScWorld "sc-1") clearedCaches
        { exCreateScorecardDto with metadataName := "newcard" }).2)
      (by decide)).1,
   (c8_mutations_invalidate_caches (exScWorld "sc-1") clearedCaches).2.2
      "sc-1"
      ((deleteScorecard (exScWorld "sc-1") clearedCaches
        "sc-1").1.toOption.getD ("", ""))
      ((deleteScorecard (exScWorld "sc-1") clearedCaches "sc-1").2)
      (by decide)⟩

/-- C9: a metric update whose payload contains no updatable field (no
new name, no description, no format unit) returns the existing metric
unchanged with an empty change list and submits no remote mutation. -/
theorem c9_noop_metric_update_no_mutation (w : MetricWorld) (id : String)
    (dto : UpdateMetricDto) (m : MetricResponseDto)
    (hm : getMetric w id = .ok m)
    (hname : jsTruthyS dto.metadataName = false)
    (hdesc : jsTruthyS dto.specDescription = false)
    (hunit : jsTruthyS dto.specFormatUnit = false) :
    updateMetric w id dto = (.ok (m, []), false) := by
  simp only [updateMetric, hm, hname, hdesc, hunit]
  simp

/-- C9 witness: the statement at a concrete input (an existing metric
`md1` and an empty update payload). -/
theorem c9_noop_metric_update_no_mutation_witness :
    getMetric exMetricWorld "md1" = .ok (mapToMetricResponseDto exGqlMetric) ∧
    jsTruthyS (none : Option String) = false ∧
    updateMetric exMetricWorld "md1"
      { metadataName := none, specDescription := none,
        specFormatUnit := none } =
      (.ok (mapToMetricResponseDto exGqlMetric, []), false) :=
  ⟨by decide, rfl,
    c9_noop_metric_update_no_mutation exMetricWorld "md1"
      { metadataName := none, specDescription := none, specFormatUnit := none }
      (mapToMetricResponseDto exGqlMetric) (by decide) rfl rfl rfl⟩

/-- C10: when the dependency-check query fails (the remote throws, or the
response is missing/malformed), `checkDependencies` swallows the error
and returns `[]`, so the deletion proceeds to submit the remote delete
mutation and, when the remote accepts it, succeeds — a remote outage
during the check never blocks a delete. -/
theorem c10_dependency_check_failure_unblocks_delete (w : ComponentWorld)
    (id : String) (g : GqlComponent)
    (hfail : w.depQueryThrows = true ∨ w.depQueryComponent = none)
    (hbyid : w.byId id = some g) :
    checkDependencies w id = [] ∧
    (deleteComponent w id).2 = true ∧
    (w.deleteSuccess = true →
      (deleteComponent w id).1 =
        .ok (id, "Component '" ++ id ++ "' deleted successfully.")) := by
  have hchk : checkDependencies w id = [] := by
    rcases hfail with hf | hf
    · simp [checkDependencies, hf]
    · by_cases ht : w.depQueryThrows <;> simp [checkDependencies, ht, hf]
  have hg : getComponent w id = .ok (mapComponentToResponseDto g) := by
    simp [getComponent, hbyid]
  refine ⟨hchk, ?_, ?_⟩
  · simp only [deleteComponent, hg, hchk]
    by_cases hd : w.deleteSuccess = true <;> simp [hd]
  · intro hds
    simp only [deleteComponent, hg, hchk]
    simp [hds]

/-- C10 witness: the statement at a concrete input (a world whose
dependency-check query throws). -/
theorem c10_dependency_check_failure_unblocks_delete_witness :
    (exDepThrowWorld.depQueryThrows = true ∨
      exDepThrowWorld.depQueryComponent = none) ∧
    exDepThrowWorld.byId "c-1" = some exGqlComponent ∧
    checkDependencies exDepThrowWorld "c-1" = [] ∧
    (deleteComponent exDepThrowWorld "c-1").2 = true ∧
    (deleteComponent exDepThrowWorld "c-1").1 =
      .ok ("c-1", "Component '" ++ "c-1" ++ "' deleted successfully.") := by
  have h := c10_dependency_check_failure_unblocks_delete exDepThrowWorld
    "c-1" exGqlComponent (Or.inl (by decide)) (by decide)
  exact ⟨Or.inl (by decide), by decide, h.1, h.2.1, h.2.2 (by decide)⟩

end Compass
